import Mathlib

/-!
# Verification of the CCG interactive command gateway

Shallow embedding of the core of the `ccg` repository (a chat-driven shell
command gateway): the output normalizer `cleanOutput`, the command dispatcher
`executeCommand`, the interactive-invocation state machine of
`executeInteractiveCommand` / `checkForInputRequest` / `handleInteractiveInput`
(src/handler.ts), and the `SessionManager` session store (src/session.ts).

JavaScript strings are modelled as Lean `String`/`List Char`; the concrete
regular expressions of the source are executed by a small backtracking
matcher (`reM`) that mirrors JavaScript regex semantics for the constructs
the source uses (greedy/lazy star, optional, alternation, character classes,
negative lookahead, multiline/end anchors, `.` excluding line terminators).
Timestamps are naturals (milliseconds); the child-process layer is modelled
by explicit process records holding the signals sent and the bytes written
to stdin.
-/

namespace CCG

/-! ## JavaScript string primitives -/

/-- JavaScript whitespace (`\s`, also the set trimmed by `String.prototype.trim`):
space, tab, line feed, vertical tab, form feed, carriage return, NBSP and the
Unicode space separators / BOM. -/
def jsIsWs (c : Char) : Bool :=
  c.toNat = 0x20 || c.toNat = 0x9 || c.toNat = 0xa || c.toNat = 0xb ||
  c.toNat = 0xc || c.toNat = 0xd ||
  c.toNat = 0xa0 || c.toNat = 0x1680 ||
  (0x2000 <= c.toNat && c.toNat <= 0x200a) ||
  c.toNat = 0x2028 || c.toNat = 0x2029 || c.toNat = 0x202f || c.toNat = 0x205f ||
  c.toNat = 0x3000 || c.toNat = 0xfeff

/-- JavaScript `.` in a regex without the `s` flag: any char except a line
terminator (LF, CR, LS, PS). -/
def jsDot (c : Char) : Bool :=
  !(c = '\n' || c = '\r' || c.toNat = 0x2028 || c.toNat = 0x2029)

/-- `String.prototype.trim()` on the character list. -/
def jsTrimList (s : List Char) : List Char :=
  (((s.dropWhile jsIsWs).reverse).dropWhile jsIsWs).reverse

/-- `String.prototype.trim()`. -/
def jsTrim (s : String) : String := ⟨jsTrimList s.data⟩

/-- ASCII lower-casing of one character (`String.prototype.toLowerCase`
restricted to ASCII, which is all the source compares). -/
def asciiLower (c : Char) : Char :=
  if 65 ≤ c.toNat && c.toNat ≤ 90 then Char.ofNat (c.toNat + 32) else c

/-- `String.prototype.toLowerCase` (ASCII). -/
def jsLower (s : String) : String := ⟨s.data.map asciiLower⟩

/-- Decidable "is an infix of" on character lists (`String.prototype.includes`). -/
def listInfix (pat : List Char) : List Char → Bool
  | [] => pat.isEmpty
  | c :: rest => pat.isPrefixOf (c :: rest) || listInfix pat rest

/-- `String.prototype.includes(pat)`. -/
def jsIncludes (s pat : String) : Bool := listInfix pat.data s.data

/-- `String.prototype.startsWith(pat)`. -/
def jsStartsWith (s pat : String) : Bool := List.isPrefixOf pat.data s.data

/-- `String.prototype.endsWith(pat)`. -/
def jsEndsWith (s pat : String) : Bool := List.isSuffixOf pat.data s.data

/-- Helper for `countOccList`: when `skip` is positive the scanner is still
inside a previous match and only moves forward. Structural recursion on the
list keeps the definition kernel-reducible. -/
def countOccAux (pat : List Char) : List Char → Nat → Nat
  | [], _ => 0
  | _ :: rest, skip + 1 => countOccAux pat rest skip
  | c :: rest, 0 =>
    if pat.isPrefixOf (c :: rest) && !pat.isEmpty then
      1 + countOccAux pat rest (pat.length - 1)
    else
      countOccAux pat rest 0

/-- Number of non-overlapping occurrences of a (non-empty) literal pattern,
scanning left to right: the length of `s.match(/pat/g)`. -/
def countOccList (pat s : List Char) : Nat := countOccAux pat s 0

/-- Number of non-overlapping occurrences of a literal in a string. -/
def countOcc (s pat : String) : Nat := countOccList pat.data s.data

/-- `split(sep)` for a one-character separator, as in JavaScript
(`"".split` gives `[""]`, empty fields are kept). -/
def jsSplitChar (s : String) (sep : Char) : List String :=
  s.splitOn (String.mk [sep])

/-- `Array.prototype.join(sep)`. -/
def jsJoin (parts : List String) (sep : String) : String :=
  String.intercalate sep parts

/-! ## A small backtracking regex matcher

Mirrors the JavaScript regex semantics for exactly the constructs the source
uses: character predicates, literals, concatenation, ordered alternation,
greedy and lazy Kleene star (with the usual empty-iteration cut-off), greedy
option, negative lookahead, the multiline end-of-line anchor `$` (`m` flag)
and the end-of-string anchor `$` (no `m` flag). -/

/-- Regex abstract syntax. -/
inductive RE where
  | eps : RE
  | ch (p : Char → Bool) : RE
  | lit (s : List Char) : RE
  | cat (r1 r2 : RE) : RE
  | alt (r1 r2 : RE) : RE
  | starG (r : RE) : RE
  | starL (r : RE) : RE
  | opt (r : RE) : RE
  | nla (r : RE) : RE
  | eol : RE
  | eos : RE

/-- Size of a regex, used to compute a sufficient fuel bound. -/
def reSize : RE → Nat
  | .eps => 1
  | .ch _ => 1
  | .lit s => s.length + 1
  | .cat r1 r2 => reSize r1 + reSize r2 + 1
  | .alt r1 r2 => reSize r1 + reSize r2 + 1
  | .starG r => reSize r + 1
  | .starL r => reSize r + 1
  | .opt r => reSize r + 1
  | .nla r => reSize r + 1
  | .eol => 1
  | .eos => 1

/-- Backtracking matcher in continuation-passing style: `reM fuel re s k`
tries to match `re` against a prefix of `s`, calling `k` on the remaining
suffix; the first success (in JavaScript preference order — greedy prefers
longer, lazy prefers shorter, alternation prefers the left branch) wins.
Star iterations are forced to consume input, as in JavaScript. `fuel` bounds
the call depth; it is structural so that the kernel can evaluate the
matcher, and `reFind` passes a bound that the search cannot exhaust. -/
def reM : Nat → RE → List Char → (List Char → Option (List Char)) → Option (List Char)
  | 0, _, _, _ => none
  | f + 1, re, s, k =>
    match re with
    | .eps => k s
    | .ch p =>
      match s with
      | [] => none
      | c :: rest => if p c then k rest else none
    | .lit l => if l.isPrefixOf s then k (s.drop l.length) else none
    | .cat r1 r2 => reM f r1 s (fun s2 => reM f r2 s2 k)
    | .alt r1 r2 => (reM f r1 s k).orElse (fun _ => reM f r2 s k)
    | .starG r =>
      (reM f r s (fun s2 =>
        if s2.length < s.length then reM f (.starG r) s2 k else none)).orElse
        (fun _ => k s)
    | .starL r =>
      (k s).orElse (fun _ =>
        reM f r s (fun s2 =>
          if s2.length < s.length then reM f (.starL r) s2 k else none))
    | .opt r => (reM f r s k).orElse (fun _ => k s)
    | .nla r => if (reM f r s some).isSome then none else k s
    | .eol =>
      match s with
      | [] => k []
      | c :: rest => if !jsDot c then k (c :: rest) else none
    | .eos => if s.isEmpty then k s else none

/-- Fuel sufficient for `reM`: along any single backtracking path each regex
node is entered at most once per remaining-input position. -/
def reFuel (re : RE) (s : List Char) : Nat :=
  (reSize re + 2) * (2 * s.length + 4) + 4

/-- Match `re` at the start of `s`; on success return the remaining suffix. -/
def reFind (re : RE) (s : List Char) : Option (List Char) :=
  reM (reFuel re s) re s some

/-- Fueled worker for `gReplace`; the fuel is structural so the kernel can
evaluate it, and every step consumes at least one character. -/
def gReplaceAux (re : RE) (repl : List Char) : Nat → List Char → List Char
  | 0, s => s
  | f + 1, s =>
    match reFind re s with
    | some rest =>
      if rest.length < s.length then repl ++ gReplaceAux re repl f rest
      else
        match s with
        | [] => repl
        | c :: tail => repl ++ c :: gReplaceAux re repl f tail
    | none =>
      match s with
      | [] => []
      | c :: tail => c :: gReplaceAux re repl f tail

/-- `String.replace(re, repl)` with the `g` flag: scan left to right,
replace every match, never rescan a replacement. -/
def gReplace (re : RE) (repl : List Char) (s : List Char) : List Char :=
  gReplaceAux re repl (s.length + 1) s

/-- `re.test(s)`: search for a match at any position. -/
def reTest (re : RE) : List Char → Bool
  | [] => (reFind re []).isSome
  | c :: tail => (reFind re (c :: tail)).isSome || reTest re tail

/-- Fueled worker for `reCount`. -/
def reCountAux (re : RE) : Nat → List Char → Nat
  | 0, _ => 0
  | f + 1, s =>
    match reFind re s with
    | some rest =>
      if rest.length < s.length then 1 + reCountAux re f rest
      else
        match s with
        | [] => 1
        | _ :: tail => 1 + reCountAux re f tail
    | none =>
      match s with
      | [] => 0
      | _ :: tail => reCountAux re f tail

/-- Number of matches of `s.match(re_g)` (global, non-overlapping,
left-to-right scan). -/
def reCount (re : RE) (s : List Char) : Nat := reCountAux re (s.length + 1) s

/-- Sugar: literal regex from a string. -/
def reStr (s : String) : RE := .lit s.data

/-- Case-insensitive literal (the `i` flag on an ASCII literal): each
character is compared after ASCII lower-casing. -/
def reStrCI (s : String) : RE :=
  s.data.foldr (fun c acc => RE.cat (.ch (fun d => asciiLower d = asciiLower c)) acc) .eps

/-! ## The concrete regular expressions of `cleanOutput` (src/handler.ts) -/

/-- `.` of the source regexes. -/
def reDot : RE := .ch jsDot

/-- The class `[0-9;]`. -/
def digitOrSemi (c : Char) : Bool := c.isDigit || c = ';'

/-- Sequential composition of a regex list. -/
def reSeq (rs : List RE) : RE := rs.foldr RE.cat .eps

/-- `/\x1b\[[0-9;]*[mGKHF]/g` — ANSI escape sequences. -/
def reAnsiSeq : RE :=
  reSeq [reStr "\x1b[", .starG (.ch digitOrSemi),
    .ch fun c => c = 'm' || c = 'G' || c = 'K' || c = 'H' || c = 'F']

/-- `/\x1b\[[0-9;]*m/g` — ANSI color codes. -/
def reAnsiColor : RE :=
  reSeq [reStr "\x1b[", .starG (.ch digitOrSemi), .ch (· = 'm')]

/-- `/\x1b\[\?[0-9]+[hl]/g` — terminal control sequences. -/
def reTermCtl : RE :=
  reSeq [reStr "\x1b[?", .ch Char.isDigit, .starG (.ch Char.isDigit),
    .ch fun c => c = 'h' || c = 'l']

/-- `/\r\s+/g` — carriage returns followed by whitespace. -/
def reCrWs : RE := reSeq [.ch (· = '\r'), .ch jsIsWs, .starG (.ch jsIsWs)]

/-- `/\x1b\][0-9;]*.*?\x07/g` — OSC sequences terminated by BEL. -/
def reOscBel : RE :=
  reSeq [reStr "\x1b]", .starG (.ch digitOrSemi), .starL reDot, .ch (· = '\x07')]

/-- `/\x1b\][0-9;]*.*?\x1b\\/g` — OSC sequences terminated by ESC-backslash. -/
def reOscSt : RE :=
  reSeq [reStr "\x1b]", .starG (.ch digitOrSemi), .starL reDot, reStr "\x1b\\"]

/-- `/\x1b\[\?2004[hl]/g` — bracketed paste mode toggles. -/
def reBracketedPaste : RE :=
  reSeq [reStr "\x1b[?2004", .ch fun c => c = 'h' || c = 'l']

/-- The `linesToRemove` banner patterns (tested against the trimmed line). -/
def linesToRemove : List RE :=
  [reSeq [reStr "Warning: Permanently added ", .starG reDot,
     reStr " to the list of known hosts."],
   reSeq [reStr "Linux ", .starG reDot, reStr " x86_64"],
   reSeq [reStr "The programs included with the ", .starG reDot,
     reStr " system are free software;"],
   reSeq [reStr "the exact distribution terms ", .starG reDot,
     reStr " described in the"],
   reStr "individual files in /usr/share/doc/*/copyright.",
   reSeq [.starG reDot, reStr "GNU/Linux comes with ABSOLUTELY NO WARRANTY",
     .starG reDot],
   reStr "permitted by applicable law.",
   reSeq [reStr "Last login: ", .starG reDot, reStr " from ", .starG reDot]]

/-- `/\][0-9;]*;.*?@.*?:[^$]*\$ /g` — bash prompt artifacts. -/
def rePromptArtifact : RE :=
  reSeq [.ch (· = ']'), .starG (.ch digitOrSemi), .ch (· = ';'),
    .starL reDot, .ch (· = '@'), .starL reDot, .ch (· = ':'),
    .starG (.ch (· != '$')), .ch (· = '$'), .ch (· = ' ')]

/-- The body of `/.*@.*?:\~?\$/` (used in the lookahead of
`rePromptTilde`). -/
def rePromptTildeCore : RE :=
  reSeq [.starG reDot, .ch (· = '@'), .starL reDot, .ch (· = ':'),
    .opt (.ch (· = '~')), .ch (· = '$')]

/-- `/.*@.*?:\~?\$ (?!.*@.*?:\~?\$)/g` — all but the last `~`-style bash
prompt on a line. -/
def rePromptTilde : RE :=
  reSeq [.starG reDot, .ch (· = '@'), .starL reDot, .ch (· = ':'),
    .opt (.ch (· = '~')), .ch (· = '$'), .ch (· = ' '), .nla rePromptTildeCore]

/-- The body of `/.*@.*?:[^$]*\$/` (used in the lookahead of `rePromptGen`
and, on its own, in the `importantLines` filter). -/
def rePromptGenCore : RE :=
  reSeq [.starG reDot, .ch (· = '@'), .starL reDot, .ch (· = ':'),
    .starG (.ch (· != '$')), .ch (· = '$')]

/-- `/.*@.*?:[^$]*\$ (?!.*@.*?:[^$]*\$)/g` — all but the last general bash
prompt on a line. -/
def rePromptGen : RE :=
  reSeq [.starG reDot, .ch (· = '@'), .starL reDot, .ch (· = ':'),
    .starG (.ch (· != '$')), .ch (· = '$'), .ch (· = ' '), .nla rePromptGenCore]

/-- `/\n{3,}/g` — three or more consecutive newlines. -/
def reMultiNewline : RE :=
  reSeq [.ch (· = '\n'), .ch (· = '\n'), .ch (· = '\n'), .starG (.ch (· = '\n'))]

/-- `/[ \t]+$/gm` — trailing horizontal whitespace on each line. -/
def reTrailingWs : RE :=
  reSeq [.ch fun c => c = ' ' || c = '\t', .starG (.ch fun c => c = ' ' || c = '\t'),
    .eol]

/-! ## Output normalizer (`cleanOutput`, src/handler.ts lines 7-94) -/

/-- The error phrases whose lines `cleanOutput` always preserves. -/
def keepPhrases : List String :=
  ["Permission denied", "Access denied", "Authentication failed",
   "Connection refused", "Connection timed out", "Host key verification failed"]

/-- `cleanOutput`: strips terminal control sequences, drops login-banner
lines (keeping error lines), removes all but the last bash prompt, collapses
newline runs and trailing whitespace, and collapses a pure prompt-echo
result to the canonical marker `"$ "`. Faithful transcription of
src/handler.ts lines 7-94. -/
def cleanOutput (text : String) : String :=
  let cleaned :=
    gReplace reBracketedPaste []
      (gReplace reOscSt []
        (gReplace reOscBel []
          (gReplace reCrWs ['\r']
            (gReplace reTermCtl []
              (gReplace reAnsiColor []
                (gReplace reAnsiSeq [] text.data))))))
  let lines := cleaned.splitOn '\n'
  let filteredLines := lines.filter fun line =>
    let trimmedLine := jsTrimList line
    if trimmedLine.isEmpty then false
    else if keepPhrases.any fun p => listInfix p.data trimmedLine then true
    else !(linesToRemove.any fun re => reTest re trimmedLine)
  let joined := List.intercalate ['\n'] filteredLines
  let cleaned2 :=
    jsTrimList
      (gReplace reTrailingWs []
        (gReplace reMultiNewline ['\n', '\n']
          (gReplace rePromptGen ['$', ' ']
            (gReplace rePromptTilde ['$', ' ']
              (gReplace rePromptArtifact ['$', ' '] joined)))))
  let lines2 := cleaned2.splitOn '\n'
  let importantLines := lines2.filter fun line =>
    !(jsTrimList line).isEmpty &&
    !listInfix "$ ".data line &&
    !reTest rePromptGenCore line &&
    !(listInfix "Permission denied".data line ||
      listInfix "Access denied".data line ||
      listInfix "Authentication failed".data line)
  let hasErrors :=
    listInfix "Permission denied".data cleaned2 ||
    listInfix "Access denied".data cleaned2 ||
    listInfix "Authentication failed".data cleaned2 ||
    listInfix "Connection refused".data cleaned2 ||
    listInfix "Connection timed out".data cleaned2
  if importantLines.isEmpty && listInfix "$ ".data cleaned2 && !hasErrors then "$ "
  else String.mk cleaned2

/-! ## Process and session model (src/session.ts) -/

/-- A spawned child process, as the handler observes it: whether a kill
signal was sent (`ChildProcess.killed`), the signals sent, the data written
to stdin, and whether the process has exited (a signal sent to an exited
process does not set `killed`). -/
structure ChildProc where
  pid : Nat
  killed : Bool := false
  signals : List String := []
  stdinData : List String := []
  exited : Bool := false
deriving Repr, DecidableEq

/-- `interface InteractiveSession` (src/session.ts); the process handle is a
reference into the world's process table. -/
structure InteractiveSession where
  id : String
  phone : String
  process : Option Nat := none
  command : String
  isWaitingForInput : Bool := false
  createdAt : Nat
  lastActivity : Nat
deriving Repr, DecidableEq

/-- The session registry (`class SessionManager`): a JavaScript `Map` from
session id to record, in insertion order. -/
structure SessionManager where
  sessions : List (String × InteractiveSession) := []
deriving Repr, DecidableEq

/-- `Map.prototype.set`: overwrite in place, else append. -/
def mapSet (k : String) (v : InteractiveSession) :
    List (String × InteractiveSession) → List (String × InteractiveSession)
  | [] => [(k, v)]
  | (k0, v0) :: rest => if k0 = k then (k, v) :: rest else (k0, v0) :: mapSet k v rest

/-- `Map.prototype.get`. -/
def mapGet (k : String) : List (String × InteractiveSession) → Option InteractiveSession
  | [] => none
  | (k0, v0) :: rest => if k0 = k then some v0 else mapGet k rest

/-- `Map.prototype.delete`. -/
def mapDelete (k : String) (m : List (String × InteractiveSession)) :
    List (String × InteractiveSession) :=
  m.filter fun kv => kv.1 ≠ k

/-- The full mutable state the handler touches: the session registry, the
process table and the pid allocator. -/
structure World where
  mgr : SessionManager := {}
  procs : List ChildProc := []
  nextPid : Nat := 0
deriving Repr, DecidableEq

/-- Look a process up by pid. -/
def getProc (w : World) (pid : Nat) : Option ChildProc :=
  w.procs.find? fun p => p.pid = pid

/-- Update the process with the given pid in place. -/
def updProc (w : World) (pid : Nat) (f : ChildProc → ChildProc) : World :=
  { w with procs := w.procs.map fun p => if p.pid = pid then f p else p }

/-- `ChildProcess.kill(sig)`: record the signal and set `killed`; sending a
signal to an exited process fails and changes nothing. -/
def killProc (sig : String) (p : ChildProc) : ChildProc :=
  if p.exited then p
  else { p with killed := true, signals := p.signals ++ [sig] }

/-- Allocate a fresh child process (`spawn`). -/
def spawnProc (w : World) : Nat × World :=
  (w.nextPid,
   { w with procs := w.procs ++ [{ pid := w.nextPid }], nextPid := w.nextPid + 1 })

/-- `SessionManager.SESSION_TIMEOUT` — 5 minutes, in milliseconds. -/
def SESSION_TIMEOUT : Nat := 5 * 60 * 1000

/-- The fixed period of the sweep timer the `SessionManager` constructor
installs (`setInterval(..., 60 * 1000)`). -/
def CLEANUP_INTERVAL : Nat := 60 * 1000

/-- `createSession(phone, command)`: fresh record keyed by
`phone + "_" + Date.now()`. -/
def createSession (phone command : String) (now : Nat) (m : SessionManager) :
    String × SessionManager :=
  let sessionId := phone ++ "_" ++ toString now
  (sessionId,
   { sessions := mapSet sessionId
       { id := sessionId, phone := phone, command := command,
         isWaitingForInput := false, createdAt := now, lastActivity := now }
       m.sessions })

/-- `getSession(phone)`: the caller's session with the greatest
`lastActivity`; ties go to the earliest-inserted record, as the stable
JavaScript descending sort resolves them. -/
def getSession (phone : String) (m : SessionManager) : Option InteractiveSession :=
  (m.sessions.map Prod.snd).foldl
    (fun best s =>
      if s.phone = phone then
        match best with
        | none => some s
        | some b => if s.lastActivity > b.lastActivity then some s else some b
      else best)
    none

/-- `updateSessionActivity(sessionId)`. -/
def updateSessionActivity (sessionId : String) (now : Nat) (m : SessionManager) :
    SessionManager :=
  match mapGet sessionId m.sessions with
  | some s => { sessions := mapSet sessionId { s with lastActivity := now } m.sessions }
  | none => m

/-- `setWaitingForInput(sessionId, waiting)` — also refreshes activity. -/
def setWaitingForInput (sessionId : String) (waiting : Bool) (now : Nat)
    (m : SessionManager) : SessionManager :=
  match mapGet sessionId m.sessions with
  | some s =>
    { sessions := mapSet sessionId
        { s with isWaitingForInput := waiting, lastActivity := now } m.sessions }
  | none => m

/-- `setProcess(sessionId, process)` — also refreshes activity. -/
def setProcess (sessionId : String) (pid : Nat) (now : Nat) (m : SessionManager) :
    SessionManager :=
  match mapGet sessionId m.sessions with
  | some s =>
    { sessions := mapSet sessionId
        { s with process := some pid, lastActivity := now } m.sessions }
  | none => m

/-- `endSession(phone)`: send SIGTERM to the caller's live, not-yet-signalled
process and delete the session record; a no-op for a caller with no
session. -/
def endSession (phone : String) (w : World) : World :=
  match getSession phone w.mgr with
  | none => w
  | some session =>
    match session.process with
    | some pid =>
      match getProc w pid with
      | some p =>
        if !p.killed then
          { updProc w pid (killProc "SIGTERM") with
            mgr := { sessions := mapDelete session.id w.mgr.sessions } }
        else { w with mgr := { sessions := mapDelete session.id w.mgr.sessions } }
      | none => { w with mgr := { sessions := mapDelete session.id w.mgr.sessions } }
    | none => { w with mgr := { sessions := mapDelete session.id w.mgr.sessions } }

/-- One entry's sweep step of `cleanupExpiredSessions()`: a session idle
longer than `SESSION_TIMEOUT` has its live process killed and its record
deleted, exactly as `endSession` does for one session. -/
def cleanupStep (now : Nat) (acc : World) (kv : String × InteractiveSession) : World :=
  if now - kv.2.lastActivity > SESSION_TIMEOUT then
    match kv.2.process with
    | some pid =>
      match getProc acc pid with
      | some p =>
        if !p.killed then
          { updProc acc pid (killProc "SIGTERM") with
            mgr := { sessions := mapDelete kv.1 acc.mgr.sessions } }
        else { acc with mgr := { sessions := mapDelete kv.1 acc.mgr.sessions } }
      | none => { acc with mgr := { sessions := mapDelete kv.1 acc.mgr.sessions } }
    | none => { acc with mgr := { sessions := mapDelete kv.1 acc.mgr.sessions } }
  else acc

/-- `cleanupExpiredSessions()` iterates the map snapshot applying
`cleanupStep` to each entry. -/
def cleanupExpiredSessions (now : Nat) (w : World) : World :=
  w.mgr.sessions.foldl (cleanupStep now) w

/-! ## Command dispatcher (`executeCommand`, src/handler.ts lines 137-214) -/

/-- `BLOCKED_COMMANDS` (src/handler.ts lines 97-110). -/
def BLOCKED_COMMANDS : List String :=
  ["rm", "mv", "shutdown", "reboot", "halt", "chmod", "chown", "del", "dd",
   "mkfs", "fdisk", "parted"]

/-- `INTERACTIVE_COMMANDS` (src/handler.ts lines 113-135). -/
def INTERACTIVE_COMMANDS : List String :=
  ["sudo", "ssh", "scp", "mysql", "psql", "passwd", "su", "ftp", "sftp",
   "telnet", "ping", "apt", "apt-get", "yum", "dnf", "pacman", "zypper",
   "snap", "pip", "npm", "yarn"]

/-- A separator of the deny-list split `/[\s&|;]+/` (`&` = 38, `|` = 124,
`;` = 59). -/
def isSepChar (c : Char) : Bool :=
  jsIsWs c || c.toNat = 38 || c.toNat = 124 || c.toNat = 59

/-- Worker for `splitSep`: `some acc` while building a token (reversed),
`none` while inside a separator run. -/
def splitSepAux : List Char → Option (List Char) → List String
  | [], some acc => [String.mk acc.reverse]
  | [], none => [""]
  | c :: t, some acc =>
    if isSepChar c then String.mk acc.reverse :: splitSepAux t none
    else splitSepAux t (some (c :: acc))
  | c :: t, none =>
    if isSepChar c then splitSepAux t none
    else splitSepAux t (some [c])

/-- `s.split(/[\s&|;]+/)`: split on maximal separator runs, keeping the
empty fields JavaScript keeps at the ends. -/
def splitSep (s : String) : List String := splitSepAux s.data (some [])

/-- The deny-list test of `executeCommand` (lines 142-146). -/
def isBlocked (command : String) : Bool :=
  (splitSep (jsTrim command)).any fun part => BLOCKED_COMMANDS.contains part

/-- The interactive-candidate test of `executeCommand` (lines 178-180). -/
def isInteractiveCommand (command : String) : Bool :=
  INTERACTIVE_COMMANDS.any fun cmd =>
    jsStartsWith (jsLower (jsTrim command)) (jsLower cmd)

/-- The dispatcher's routing decision: which branch of `executeCommand`
handles the inbound message. -/
inductive DispatchAction where
  | blocked : DispatchAction
  | sessionEnded : DispatchAction
  | sessionsInfo (info : String) : DispatchAction
  | routeInput (session : InteractiveSession) (input : String) : DispatchAction
  | runInteractive (command : String) : DispatchAction
  | runNonInteractive (command : String) : DispatchAction
deriving Repr, DecidableEq

/-- `"❌ Error: Command contains a blocked term."` -/
def blockedMessage : String := "❌ Error: Command contains a blocked term."

/-- `"✅ Session ended."` -/
def sessionEndedMessage : String := "✅ Session ended."

/-- `"📋 No active sessions."` -/
def noActiveSessionsMessage : String := "📋 No active sessions."

/-- Stand-in rendering of `Date.prototype.toISOString()`: the exact text
never matters to a claim, only that it is a function of the timestamp. -/
def toISOString (t : Nat) : String := toString t

/-- The `sessions` directive's report for an active session. -/
def sessionsInfoMessage (s : InteractiveSession) : String :=
  "📋 Active session: " ++ s.command ++ "\n⏰ Created: " ++ toISOString s.createdAt ++
  "\n🔄 Waiting for input: " ++ (if s.isWaitingForInput then "Yes" else "No")

/-- The routing prefix of `executeCommand` (src/handler.ts lines 137-187):
deny-list check, `exit`/`quit` and `sessions` directives, waiting-session
input routing, then the interactive / non-interactive choice. The spawned
execution itself is modelled by `startInteractive`,
`executeNonInteractiveCommand` and `handleInteractiveInput`. -/
def executeCommandAction (command phone : String) (w : World) :
    DispatchAction × World :=
  if isBlocked command then (.blocked, w)
  else if jsLower command = "exit" || jsLower command = "quit" then
    (.sessionEnded, endSession phone w)
  else if jsLower command = "sessions" then
    match getSession phone w.mgr with
    | some session => (.sessionsInfo (sessionsInfoMessage session), w)
    | none => (.sessionsInfo noActiveSessionsMessage, w)
  else
    match getSession phone w.mgr with
    | some existingSession =>
      if existingSession.isWaitingForInput && existingSession.process.isSome then
        (.routeInput existingSession command, w)
      else if isInteractiveCommand command then (.runInteractive command, w)
      else (.runNonInteractive command, w)
    | none =>
      if isInteractiveCommand command then (.runInteractive command, w)
      else (.runNonInteractive command, w)

/-- Outcome of a one-shot spawned process: captured stdout, stderr and exit
code. -/
structure ProcOutcome where
  stdout : String
  stderr : String
  exitCode : Int
deriving Repr, DecidableEq

/-- `executeNonInteractiveCommand` (src/handler.ts lines 189-214) as a
function of the spawned process's outcome; no session is consulted or
created. -/
def executeNonInteractiveCommand (r : ProcOutcome) : String :=
  if r.exitCode ≠ 0 then
    "❌ Error (Exit Code: " ++ toString r.exitCode ++ "):\n" ++ jsTrim r.stderr
  else if jsTrim r.stdout ≠ "" then jsTrim r.stdout
  else "✅ Command executed successfully, but produced no output."

/-! ## Helpers and message texts of the interactive handler (src/handler.ts) -/

/-- `String.prototype.replace(pat, repl)` with a string pattern: first
occurrence only. -/
def jsReplaceFirstList (pat repl : List Char) : List Char → List Char
  | [] => []
  | c :: rest =>
    if pat.isPrefixOf (c :: rest) && !pat.isEmpty then
      repl ++ (c :: rest).drop pat.length
    else c :: jsReplaceFirstList pat repl rest

/-- `command.split("@")[0].replace("ssh ", "")` — the username part shown in
the ssh diagnostics. -/
def userPart (command : String) : String :=
  String.mk (jsReplaceFirstList "ssh ".data [] ((jsSplitChar command '@').headD "").data)

/-- `command.split(" ").slice(1).join(" ")`. -/
def restPart (command : String) : String :=
  jsJoin ((jsSplitChar command ' ').drop 1) " "

/-- `command.split("@")[1] || command.split(" ")[1]` rendered in a template
literal (JavaScript renders a missing field as `"undefined"`, and `||`
falls through on the empty string). -/
def hostPart (command : String) : String :=
  let atPart := (jsSplitChar command '@').get? 1
  let spacePart := (jsSplitChar command ' ').get? 1
  match atPart with
  | some s =>
    if s = "" then
      match spacePart with
      | some t => t
      | none => "undefined"
    else s
  | none =>
    match spacePart with
    | some t => t
    | none => "undefined"

/-- `/password:\s*$/gm` — a password prompt at end of line (the prompt
counter of the stdout handler, line 270). -/
def rePasswordPromptEol : RE := reSeq [reStr "password:", .starG (.ch jsIsWs), .eol]

/-- `/password.*:/i` (line 318). -/
def rePasswordColon : RE := reSeq [reStrCI "password", .starG reDot, .ch (· = ':')]

/-- The six failure phrases of the stdout handler (lines 257-263). -/
def hasAuthFailureOutput (output : String) : Bool :=
  jsIncludes output "Permission denied" || jsIncludes output "Access denied" ||
  jsIncludes output "Authentication failed" || jsIncludes output "Connection refused" ||
  jsIncludes output "Connection timed out" ||
  jsIncludes output "Host key verification failed"

/-- The failure phrases of `checkForInputRequest` (lines 525-532): the six
above plus `"Name or service not known"`. -/
def hasAuthFailureCheck (output : String) : Bool :=
  hasAuthFailureOutput output || jsIncludes output "Name or service not known"

/-- Exit-code rendering in a template literal (`null` when no code). -/
def codeStr : Option Int → String
  | some n => toString n
  | none => "null"

/-- The forced bad-credentials diagnostic of the stdout handler (line 302). -/
def sshAuthFailedForcedMessage (command : String) (attempts : Int)
    (cleanedOutput : String) : String :=
  "❌ **SSH Authentication Failed**\n\n🔐 **Issue**: Wrong password or username (" ++
  toString attempts ++
  " failed attempts)\n\n💡 **Solutions**:\n- Double-check username: `" ++
  userPart command ++
  "`\n- Verify password is correct\n- Ensure user exists on target system\n- Try: `!ssh -v " ++
  restPart command ++
  "` for verbose output\n\n📋 **Details**:\n```\n" ++ cleanedOutput ++ "\n```"

/-- The bad-credentials diagnostic of the exit handler (line 387). -/
def sshAuthFailedExitMessage (command : String) (attempts : Nat)
    (cleanedOutput : String) : String :=
  "❌ **SSH Authentication Failed**\n\n🔐 **Issue**: Wrong password or username (" ++
  toString attempts ++
  " attempts)\n\n💡 **Solutions**:\n- Double-check username: `" ++
  userPart command ++
  "`\n- Verify password is correct\n- Ensure user exists on target system\n- Try: `!ssh -v " ++
  restPart command ++
  "` for verbose output\n\n📋 **Details**:\n```\n" ++ cleanedOutput ++ "\n```"

/-- The connection-refused diagnostic (line 395). -/
def sshConnRefusedMessage (command cleanedOutput : String) : String :=
  "❌ **SSH Connection Refused**\n\n🔌 **Issue**: SSH service not accessible\n\n💡 **Solutions**:\n- Check if SSH service is running: `sudo systemctl status ssh`\n- Verify correct port (default 22): `!ssh -p 22 " ++
  restPart command ++
  "`\n- Check firewall settings on target host\n- Ensure host is reachable: `!ping " ++
  hostPart command ++
  "`\n\n📋 **Details**:\n```\n" ++ cleanedOutput ++ "\n```"

/-- The connection-timeout diagnostic (line 403). -/
def sshConnTimeoutMessage (command cleanedOutput : String) : String :=
  "❌ **SSH Connection Timeout**\n\n⏰ **Issue**: Host unreachable or network problems\n\n💡 **Solutions**:\n- Check network connectivity: `!ping " ++
  hostPart command ++
  "`\n- Verify correct hostname/IP address\n- Check if host is powered on\n- Try with longer timeout: `!ssh -o ConnectTimeout=30 " ++
  restPart command ++
  "`\n\n📋 **Details**:\n```\n" ++ cleanedOutput ++ "\n```"

/-- The host-key diagnostic (line 410). -/
def sshHostKeyMessage (command cleanedOutput : String) : String :=
  "❌ **SSH Host Key Verification Failed**\n\n🔑 **Issue**: Host key has changed (potential security risk)\n\n💡 **Solutions**:\n- If you trust the host, remove old key: `ssh-keygen -R " ++
  hostPart command ++
  "`\n- Or use: `!ssh -o StrictHostKeyChecking=no " ++
  restPart command ++
  "`\n- Contact system administrator if unexpected\n\n📋 **Details**:\n```\n" ++
  cleanedOutput ++ "\n```"

/-- The name-resolution diagnostic (line 417). -/
def sshNameResMessage (command cleanedOutput : String) : String :=
  "❌ **SSH Hostname Resolution Failed**\n\n🌐 **Issue**: Cannot resolve hostname\n\n💡 **Solutions**:\n- Check hostname spelling: `" ++
  hostPart command ++
  "`\n- Try using IP address instead\n- Check DNS settings: `!nslookup " ++
  hostPart command ++
  "`\n- Verify network connectivity\n\n📋 **Details**:\n```\n" ++
  cleanedOutput ++ "\n```"

/-- The connection-closed diagnostic (line 424). -/
def sshConnClosedMessage (cleanedOutput : String) : String :=
  "❌ **SSH Connection Closed by Remote Host**\n\n🚫 **Issue**: Remote host terminated connection\n\n💡 **Possible Causes**:\n- Too many failed login attempts (account locked)\n- IP address banned/blocked\n- SSH service configuration restricts access\n- Server overload or maintenance\n\n💡 **Solutions**:\n- Wait a few minutes and try again\n- Contact system administrator\n- Check if your IP is whitelisted\n\n📋 **Details**:\n```\n" ++
  cleanedOutput ++ "\n```"

/-- The generic ssh-failure diagnostic (line 432). -/
def sshGenericFailureMessage (command : String) (code : Option Int)
    (cleanedOutput : String) : String :=
  "❌ **SSH Failed (Exit Code: " ++ codeStr code ++
  ")**\n\n⚠️ **Unexpected Error**\n\n💡 **Try**:\n- Run with verbose output: `!ssh -v " ++
  restPart command ++
  "`\n- Check command syntax\n- Verify all parameters\n\n📋 **Details**:\n```\n" ++
  cleanedOutput ++ "\n```"

/-- `"✅ Command completed (Exit Code: ...)"` without output (line 439). -/
def completedNoOutputMessage (code : Option Int) : String :=
  "✅ Command completed (Exit Code: " ++ codeStr code ++ ")"

/-- `"✅ Command completed (Exit Code: ...)"` with the cleaned transcript
(line 445). -/
def completedWithOutputMessage (code : Option Int) (cleanedOutput : String) : String :=
  "✅ Command completed (Exit Code: " ++ codeStr code ++ ")\n\n```\n" ++
  cleanedOutput ++ "\n```"

/-- The password-prompt notification of the stdout handler (line 324). -/
def sshPasswordRequiredMessage (command cleanedChunk : String) : String :=
  "🔐 **SSH Password Required**\n\nCommand: `" ++ command ++
  "`\n\nOutput:\n```\n" ++ cleanedChunk ++
  "```\n\n💬 Please send your password now.\n\n⚡ Commands:\n• `exit` - End session"

/-- The short acknowledgement the password branch resolves with (line 331). -/
def sshPasswordAck : String := "🔐 SSH is asking for password. Please provide it now."

/-- The ssh-starting notification of the initial timeout (line 467). -/
def sshStartingMessage (command : String) : String :=
  "🔐 **SSH Starting**\n\nCommand: `" ++ command ++
  "`\n\n💭 SSH may be waiting for password. Please send your password.\n\n⚡ Commands:\n• `exit` - End session"

/-- The acknowledgement of the ssh initial timeout (line 474). -/
def sshMayNeedPasswordAck : String := "🔐 SSH may need password. Please provide it."

/-- The 60-second ssh hard-timeout diagnostic (line 499). -/
def sshTimeoutMessage (details : String) : String :=
  "⏰ **SSH Connection Timeout**\n\n🔌 **Issue**: SSH process timed out after 60 seconds\n\n💡 **Possible Causes**:\n- Multiple failed authentication attempts\n- Network connectivity issues\n- SSH service not responding\n\n📋 **Details**:\n```\n" ++
  details ++ "\n```"

/-- The interactive-output notification of `checkForInputRequest`
(line 654). -/
def interactiveOutputMessage (displayOutput : String) : String :=
  "🖥️ **Interactive Command Output:**\n```\n" ++ displayOutput ++
  "```\n\n💬 **Waiting for input.** Please send your response.\n\n⚡ Commands:\n• `exit` - End session\n• `sessions` - Show session info"

/-- The acknowledgement of the waiting branch (line 660). -/
def interactiveRunningAck : String :=
  "🔄 Command is running interactively. Please provide input when requested."

/-- The may-be-waiting notification of the 1.5s second look (line 669). -/
def maybeWaitingMessage (cleanedOutput : String) : String :=
  "🖥️ **Command Output:**\n```\n" ++ cleanedOutput ++
  "```\n\n💭 Command may be waiting for input. Send your response or type `exit` to end."

/-- The acknowledgement of the second-look branch (line 675). -/
def outputSentSeparatelyAck : String := "🔄 Command is running. Output sent separately."

/-- The no-output notification (line 680). -/
def commandStartedMessage (command : String) : String :=
  "🔄 **Command started:** `" ++ command ++
  "`\n\n💭 No immediate output. The command may be waiting for input.\nPlease provide input or type `exit` to end the session."

/-- The ssh variant of the no-output notification (line 684). -/
def sshCommandStartedMessage (command : String) : String :=
  "🔄 **SSH Command started:** `" ++ command ++
  "`\n\n💭 SSH may be:\n- Establishing connection\n- Waiting for password\n- Performing host key verification\n\nPlease wait or provide input when prompted.\n\n⚡ Commands:\n• `exit` - End session"

/-- The acknowledgement of the no-output branch (line 689). -/
def interactiveStartedAck : String :=
  "🔄 Interactive command started. Please provide input when requested."

/-- `"❌ Session lost"` (line 517). -/
def sessionLostMessage : String := "❌ Session lost"

/-- `"❌ Session process is no longer active."` (line 701). -/
def sessionGoneMessage : String := "❌ Session process is no longer active."

/-! ## De-duplication ledger -/

/-- Modelled from the spec: the per-caller de-duplication ledger behind
`sessionManager.shouldSendMessage` / `markMessageSent`. The two methods are
called in src/handler.ts but their definition is not among the provided
sources; the spec describes the ledger as one last-sent message fingerprint
per caller, overwritten on each send, suppressing a resend of identical
text. -/
structure DedupLedger where
  lastMessage : List (String × String) := []
deriving Repr, DecidableEq

/-- Modelled from the spec: `shouldSendMessage(phone, text)` — true unless
`text` equals the caller's last-sent fingerprint. -/
def shouldSendMessage (phone text : String) (d : DedupLedger) : Bool :=
  match d.lastMessage.find? fun kv => kv.1 = phone with
  | some kv => kv.2 ≠ text
  | none => true

/-- Modelled from the spec: `markMessageSent(phone, text)` — overwrite the
caller's fingerprint. -/
def markMessageSent (phone text : String) (d : DedupLedger) : DedupLedger :=
  { lastMessage := (phone, text) :: d.lastMessage.filter fun kv => kv.1 ≠ phone }

/-! ## The interactive invocation state machine
(`executeInteractiveCommand`, src/handler.ts lines 216-506) -/

/-- What the 1.5s second-look timer of `checkForInputRequest` captures when
it is armed (lines 666-676): the cleaned output, the session id and the
session's process reference at arming time. -/
structure GraceCapture where
  cleaned : String
  sessionId : String
  pid : Option Nat
deriving Repr, DecidableEq

/-- The per-invocation closure state of `executeInteractiveCommand`: the
`output` accumulator, the `hasReceivedOutput` and `resolved` flags, the
promise (single-assignment — the first `resolve` wins and later calls are
no-ops), the pending debounce / second-look timers, the notifications sent,
the de-duplication ledger and the shared world. -/
structure InvState where
  command : String
  phone : String
  sessionId : String
  pid : Nat
  output : String := ""
  hasReceivedOutput : Bool := false
  resolvedFlag : Bool := false
  result : Option String := none
  timerArmed : Bool := false
  graceData : Option GraceCapture := none
  world : World
  ledger : DedupLedger := {}
  notifications : List (String × String) := []
deriving Repr, DecidableEq

/-- Resolving the invocation's promise: the first value wins, later calls
are no-ops (JavaScript promise semantics). -/
def tryResolve (v : String) (st : InvState) : InvState :=
  match st.result with
  | some _ => st
  | none => { st with result := some v }

/-- `sendWhatsappMessage(c, phone, text)`: append an outbound notification. -/
def sendMessage (phone text : String) (st : InvState) : InvState :=
  { st with notifications := st.notifications ++ [(phone, text)] }

/-- The fixed `inputIndicators` list of `checkForInputRequest`
(lines 542-580). -/
def inputIndicators : List String :=
  ["password:", "password for", "enter password:", "passphrase:",
   "'s password:", "continue?", "yes/no", "y/n", "[y/n]", "(y/n)",
   "do you want to continue", "do you want to install", "proceed with",
   "are you sure", "confirm", "press any key", "enter", "input:",
   "please enter", "waiting for input", "install these packages",
   "continue with this action", "abort the installation", "would you like to",
   "type 'yes' to continue", "do you want to", "shall i", "ok to continue",
   "continue?", "proceed?", "install?", "upgrade?", "remove?", "delete?",
   "overwrite?", "login:", "username:"]

/-- JavaScript `\w`. -/
def isWordChar (c : Char) : Bool :=
  ('a' ≤ c && c ≤ 'z') || ('A' ≤ c && c ≤ 'Z') || ('0' ≤ c && c ≤ '9') || c = '_'

/-- The tail of `/\b(continue|proceed|install|upgrade|remove)\?\s*$/i`
after its word boundary. -/
def reContinueTail : RE :=
  reSeq [.alt (reStrCI "continue") (.alt (reStrCI "proceed") (.alt (reStrCI "install")
    (.alt (reStrCI "upgrade") (reStrCI "remove")))),
    .ch (· = '?'), .starG (.ch jsIsWs), .eol]

/-- `.test` of a regex whose first token is `\b` followed by a word
character: search every position whose predecessor is absent or not a word
character. -/
def testAtBoundary (re : RE) (prev : Option Char) (s : List Char) : Bool :=
  let boundaryOK : Bool :=
    match prev with
    | none => true
    | some c => !isWordChar c
  if boundaryOK && (reFind re s).isSome then true
  else
    match s with
    | [] => false
    | c :: tail => testAtBoundary re (some c) tail

/-- `/.*@.*?:\S*\$ ?$/m` (line 609). -/
def reSshPromptTail : RE :=
  reSeq [.starG reDot, .ch (· = '@'), .starL reDot, .ch (· = ':'),
    .starG (.ch fun c => !jsIsWs c), .ch (· = '$'), .opt (.ch (· = ' ')), .eol]

/-- `/^.*@.*?:[^$]*\$$/` (line 647), anchored at both ends. -/
def rePromptFullLine : RE :=
  reSeq [.starG reDot, .ch (· = '@'), .starL reDot, .ch (· = ':'),
    .starG (.ch (· != '$')), .ch (· = '$'), .eos]

/-- The relevant-lines extraction for ssh sessions (lines 629-639): walk the
lines bottom-up, collecting each trimmed line, stopping at a prompt line once
a content line was seen and no error phrase is present. The first argument
is the reversed line list. -/
def sshRelevantLoop (hasErrors : Bool) :
    List String → Bool → List String → List String
  | [], _, acc => acc
  | l :: rest, foundCommand, acc =>
    let line := jsTrim l
    if jsIncludes line "$ " && foundCommand && !hasErrors then line :: acc
    else
      let acc2 := line :: acc
      let found2 :=
        if line ≠ "" && !jsIncludes line "$ " && !reTest rePromptGenCore line.data then
          true
        else foundCommand
      sshRelevantLoop hasErrors rest found2 acc2

/-- The ssh display-output post-processing of the waiting branch
(lines 620-652). -/
def sshDisplayOutput (displayOutput : String) : String :=
  let lines := jsSplitChar displayOutput '\n'
  let hasErrors :=
    jsIncludes displayOutput "Permission denied" ||
    jsIncludes displayOutput "Access denied" ||
    jsIncludes displayOutput "Authentication failed"
  let display2 := jsTrim (jsJoin (sshRelevantLoop hasErrors lines.reverse false []) "\n")
  if !hasErrors &&
      (display2 = "$ " || (reFind rePromptFullLine display2.data).isSome || display2 = "") then
    "$ Ready for next command"
  else display2

/-- `checkForInputRequest` (src/handler.ts lines 508-692) as a state
transformer; the 1.5s second look of its middle branch is armed here and
fired by the `graceFire` event. -/
def checkForInputRequest (now : Nat) (st : InvState) : InvState :=
  match getSession st.phone st.world.mgr with
  | none => tryResolve sessionLostMessage st
  | some session =>
    if session.process.isNone then tryResolve sessionLostMessage st
    else
      let output := st.output
      let cleanedOutput := cleanOutput output
      if jsIncludes session.command "ssh" && hasAuthFailureCheck output then
        st
      else
        let lowerOutput := jsLower output
        let filteredIndicators :=
          if jsIncludes session.command "ssh" &&
              (jsIncludes output "Permission denied" ||
               jsIncludes output "Access denied") then
            inputIndicators.filter fun ind => !jsIncludes ind "password"
          else inputIndicators
        let needsInput :=
          filteredIndicators.any fun indicator => jsIncludes lowerOutput indicator
        let trimmed := jsTrim cleanedOutput
        if needsInput || jsEndsWith trimmed ":" || jsEndsWith trimmed "?" ||
            jsEndsWith trimmed "(Y/n)" || jsEndsWith trimmed "(y/N)" ||
            jsEndsWith trimmed "[Y/n]" || jsEndsWith trimmed "[y/N]" ||
            jsEndsWith trimmed "(yes/no)" || jsEndsWith trimmed "[yes/no]" ||
            testAtBoundary reContinueTail none trimmed.data ||
            (jsIncludes cleanedOutput "$ " && !jsIncludes session.command "ssh" &&
              !jsIncludes output "Permission denied") ||
            (reTest reSshPromptTail cleanedOutput.data &&
              !jsIncludes output "Permission denied" &&
              !jsIncludes output "Access denied" &&
              !jsIncludes output "Authentication failed") then
          let mgr2 := setWaitingForInput st.sessionId true now st.world.mgr
          let st := { st with world := { st.world with mgr := mgr2 } }
          let displayOutput :=
            if jsIncludes session.command "ssh" then sshDisplayOutput cleanedOutput
            else cleanedOutput
          let message := interactiveOutputMessage displayOutput
          let st :=
            if shouldSendMessage st.phone displayOutput st.ledger then
              let st2 := sendMessage st.phone message st
              { st2 with ledger := markMessageSent st.phone displayOutput st.ledger }
            else st
          tryResolve interactiveRunningAck st
        else if jsTrim cleanedOutput ≠ "" then
          { st with graceData := some ⟨cleanedOutput, session.id, session.process⟩ }
        else
          let mgr2 := setWaitingForInput st.sessionId true now st.world.mgr
          let st := { st with world := { st.world with mgr := mgr2 } }
          let message :=
            if jsIncludes session.command "ssh" then
              sshCommandStartedMessage session.command
            else commandStartedMessage session.command
          let st := sendMessage st.phone message st
          tryResolve interactiveStartedAck st

/-- The 1.5s second-look timer callback (lines 666-676), fired as the
`graceFire` event with the data captured when it was armed. -/
def onGraceFire (now : Nat) (st : InvState) : InvState :=
  match st.graceData with
  | none => st
  | some g =>
    let st := { st with graceData := none }
    let alive :=
      match g.pid with
      | some pid =>
        match getProc st.world pid with
        | some p => !p.killed
        | none => false
      | none => false
    let st :=
      if alive then
        let mgr2 := setWaitingForInput g.sessionId true now st.world.mgr
        let st2 := { st with world := { st.world with mgr := mgr2 } }
        let message := maybeWaitingMessage g.cleaned
        if shouldSendMessage st2.phone g.cleaned st2.ledger then
          let st3 := sendMessage st2.phone message st2
          { st3 with ledger := markMessageSent st2.phone g.cleaned st2.ledger }
        else st2
      else st
    tryResolve outputSentSeparatelyAck st

/-- The stdout data handler of `executeInteractiveCommand`
(lines 249-343). -/
def onStdoutData (now : Nat) (chunk : String) (st : InvState) : InvState :=
  let output := st.output ++ chunk
  let st := { st with output := output, hasReceivedOutput := true }
  let hasAuthFailure := hasAuthFailureOutput output
  if jsIncludes st.command "ssh" && hasAuthFailure then
    let permissionDeniedCount := countOcc output "Permission denied"
    let passwordPromptCount := reCount rePasswordPromptEol output.data
    let attempts : Int :=
      max (permissionDeniedCount : Int) ((passwordPromptCount : Int) - 1)
    if attempts ≥ 2 && !st.resolvedFlag then
      let st := { st with resolvedFlag := true }
      let st := { st with world := endSession st.phone st.world }
      let st :=
        match getProc st.world st.pid with
        | some p =>
          if !p.killed then
            { st with world := updProc st.world st.pid (killProc "SIGTERM") }
          else st
        | none => st
      let cleanedOutput := cleanOutput output
      let errorMessage := sshAuthFailedForcedMessage st.command attempts cleanedOutput
      let st := sendMessage st.phone errorMessage st
      tryResolve errorMessage st
    else st
  else if !hasAuthFailure &&
      (jsIncludes (jsLower chunk) "password" || jsIncludes chunk "'s password:" ||
        reTest rePasswordColon chunk.data) &&
      !jsIncludes chunk "Permission denied" then
    let mgr2 := setWaitingForInput st.sessionId true now st.world.mgr
    let st := { st with world := { st.world with mgr := mgr2 } }
    let cleanedChunk := cleanOutput output
    let message := sshPasswordRequiredMessage st.command cleanedChunk
    let st :=
      if shouldSendMessage st.phone cleanedChunk st.ledger then
        let st2 := sendMessage st.phone message st
        { st2 with ledger := markMessageSent st.phone cleanedChunk st.ledger }
      else st
    if !st.resolvedFlag then
      tryResolve sshPasswordAck { st with resolvedFlag := true }
    else st
  else if !hasAuthFailure then { st with timerArmed := true }
  else st

/-- The stderr data handler (lines 346-364). -/
def onStderrData (chunk : String) (st : InvState) : InvState :=
  if !jsIncludes chunk "WARNING: apt does not have a stable CLI interface" then
    { st with output := st.output ++ chunk, hasReceivedOutput := true, timerArmed := true }
  else st

/-- The process exit handler (lines 367-449). -/
def onExit (code : Option Int) (st : InvState) : InvState :=
  let st := { st with timerArmed := false }
  let st := { st with world := updProc st.world st.pid fun p => { p with exited := true } }
  let st := { st with world := endSession st.phone st.world }
  let cleanedOutput := cleanOutput st.output
  if jsIncludes st.command "ssh" && (code = some 255 || code ≠ some 0) then
    if jsIncludes st.output "Permission denied" then
      let attempts := countOcc st.output "Permission denied"
      if !st.resolvedFlag then
        tryResolve (sshAuthFailedExitMessage st.command attempts cleanedOutput)
          { st with resolvedFlag := true }
      else st
    else if jsIncludes st.output "Connection refused" then
      if !st.resolvedFlag then
        tryResolve (sshConnRefusedMessage st.command cleanedOutput)
          { st with resolvedFlag := true }
      else st
    else if jsIncludes st.output "Connection timed out" then
      if !st.resolvedFlag then
        tryResolve (sshConnTimeoutMessage st.command cleanedOutput)
          { st with resolvedFlag := true }
      else st
    else if jsIncludes st.output "Host key verification failed" then
      if !st.resolvedFlag then
        tryResolve (sshHostKeyMessage st.command cleanedOutput)
          { st with resolvedFlag := true }
      else st
    else if jsIncludes st.output "Name or service not known" then
      if !st.resolvedFlag then
        tryResolve (sshNameResMessage st.command cleanedOutput)
          { st with resolvedFlag := true }
      else st
    else if jsIncludes st.output "Connection closed by" then
      if !st.resolvedFlag then
        tryResolve (sshConnClosedMessage cleanedOutput)
          { st with resolvedFlag := true }
      else st
    else
      if !st.resolvedFlag then
        tryResolve (sshGenericFailureMessage st.command code cleanedOutput)
          { st with resolvedFlag := true }
      else st
  else if !st.hasReceivedOutput then
    if !st.resolvedFlag then
      tryResolve (completedNoOutputMessage code) { st with resolvedFlag := true }
    else st
  else
    if !st.resolvedFlag then
      tryResolve (completedWithOutputMessage code cleanedOutput)
        { st with resolvedFlag := true }
    else st

/-- The process error handler (lines 452-459). -/
def onError (message : String) (st : InvState) : InvState :=
  let st := { st with timerArmed := false }
  let st := { st with world := endSession st.phone st.world }
  if !st.resolvedFlag then
    tryResolve ("❌ Process error: " ++ message) { st with resolvedFlag := true }
  else st

/-- The initial 800ms timeout (lines 462-480). -/
def onInitialTimeout (now : Nat) (st : InvState) : InvState :=
  if st.hasReceivedOutput then st
  else if jsIncludes st.command "ssh" then
    let mgr2 := setWaitingForInput st.sessionId true now st.world.mgr
    let st := { st with world := { st.world with mgr := mgr2 } }
    let message := sshStartingMessage st.command
    let st :=
      if shouldSendMessage st.phone st.command st.ledger then
        let st2 := sendMessage st.phone message st
        { st2 with ledger := markMessageSent st.phone st.command st.ledger }
      else st
    if !st.resolvedFlag then
      tryResolve sshMayNeedPasswordAck { st with resolvedFlag := true }
    else st
  else checkForInputRequest now st

/-- The 60-second ssh hard timeout (lines 483-504); installed only for ssh
commands. -/
def onSshTimeout (st : InvState) : InvState :=
  if !jsIncludes st.command "ssh" then st
  else
    let procAlive :=
      match getProc st.world st.pid with
      | some p => !p.killed
      | none => false
    if !st.resolvedFlag && procAlive then
      let st := { st with world := updProc st.world st.pid (killProc "SIGTERM") }
      if !st.resolvedFlag then
        let st := { st with resolvedFlag := true }
        let st := { st with world := endSession st.phone st.world }
        let cleanedOutput := cleanOutput st.output
        tryResolve
          (sshTimeoutMessage (if cleanedOutput = "" then "No output received" else cleanedOutput))
          st
      else st
    else st

/-- One asynchronous event of an interactive invocation. -/
inductive IEvent where
  | stdoutData (now : Nat) (chunk : String) : IEvent
  | stderrData (chunk : String) : IEvent
  | debounceFire (now : Nat) : IEvent
  | graceFire (now : Nat) : IEvent
  | initialTimeout (now : Nat) : IEvent
  | exited (code : Option Int) : IEvent
  | procError (message : String) : IEvent
  | sshTimeout : IEvent
deriving Repr, DecidableEq

/-- Dispatch one event to its handler; the debounce timer only fires while
armed (data events re-arm it, the exit and error handlers clear it). -/
def istep (e : IEvent) (st : InvState) : InvState :=
  match e with
  | .stdoutData now chunk => onStdoutData now chunk st
  | .stderrData chunk => onStderrData chunk st
  | .debounceFire now =>
    if st.timerArmed then checkForInputRequest now { st with timerArmed := false }
    else st
  | .graceFire now => onGraceFire now st
  | .initialTimeout now => onInitialTimeout now st
  | .exited code => onExit code st
  | .procError message => onError message st
  | .sshTimeout => onSshTimeout st

/-- Run a whole event trace. -/
def runTrace (events : List IEvent) (st : InvState) : InvState :=
  events.foldl (fun s e => istep e s) st

/-- The ssh pseudo-terminal wrapper of `executeInteractiveCommand`
(lines 233-238). -/
def finalCommandFor (command : String) : String :=
  if jsStartsWith (jsTrim command) "ssh" then
    "script -qec \"" ++ command ++
    " -tt -o StrictHostKeyChecking=no -o UserKnownHostsFile=/dev/null -o ConnectTimeout=15 -o BatchMode=no\" /dev/null"
  else command

/-- The synchronous prefix of `executeInteractiveCommand` (lines 216-246):
force-end any existing session of the caller, create the fresh session,
spawn the child process and attach it. Returns the initial invocation state
whose events `istep` consumes. -/
def startInteractive (command phone : String) (now : Nat) (w : World)
    (ledger : DedupLedger) : InvState :=
  let w := endSession phone w
  let created := createSession phone command now w.mgr
  let sessionId := created.1
  let w := { w with mgr := created.2 }
  let spawned := spawnProc w
  let pid := spawned.1
  let w := spawned.2
  let w := { w with mgr := setProcess sessionId pid now w.mgr }
  { command := command, phone := phone, sessionId := sessionId, pid := pid,
    world := w, ledger := ledger }

/-- Immediate outcome of `handleInteractiveInput`: either the SessionGone
message (dead or absent process) or the input was written to stdin and a
fresh promise now awaits further output. -/
inductive InputOutcome where
  | gone (message : String) : InputOutcome
  | written : InputOutcome
deriving Repr, DecidableEq

/-- The synchronous prefix of `handleInteractiveInput` (lines 694-709): the
dead-process guard, the stdin write and the session-state flips. -/
def handleInteractiveInput (session : InteractiveSession) (input : String)
    (now : Nat) (w : World) : InputOutcome × World :=
  let dead :=
    match session.process with
    | none => true
    | some pid =>
      match getProc w pid with
      | some p => p.killed
      | none => true
  if dead then (.gone sessionGoneMessage, endSession session.phone w)
  else
    match session.process with
    | some pid =>
      let w := updProc w pid fun p => { p with stdinData := p.stdinData ++ [input ++ "\n"] }
      let w := { w with mgr := setWaitingForInput session.id false now w.mgr }
      let w := { w with mgr := updateSessionActivity session.id now w.mgr }
      (.written, w)
    | none => (.gone sessionGoneMessage, endSession session.phone w)

/-! ## Specification-level helpers -/

/-- The caller's session records, in store order. -/
def sessionsOf (phone : String) (m : SessionManager) : List InteractiveSession :=
  (m.sessions.map Prod.snd).filter fun s => s.phone = phone

/-- Well-formedness the JavaScript `Map` usage maintains: unique keys, and
each key is its record's id. -/
def StoreWF (m : SessionManager) : Prop :=
  (m.sessions.map Prod.fst).Nodup ∧ ∀ kv ∈ m.sessions, kv.1 = kv.2.id

/-- The invariant of claim C2: at most one session per caller identity. -/
def AtMostOnePerCaller (m : SessionManager) : Prop :=
  ∀ ph : String, (sessionsOf ph m).length ≤ 1

/-- The immediate response `executeCommand` returns on its synchronous
branches (the asynchronous branches produce their result through the
invocation state machine). -/
def dispatchResponse : DispatchAction → Option String
  | .blocked => some blockedMessage
  | .sessionEnded => some sessionEndedMessage
  | .sessionsInfo info => some info
  | .routeInput _ _ => none
  | .runInteractive _ => none
  | .runNonInteractive _ => none

/-- The `resolved` flag never outruns the promise: whenever the flag is set,
a result exists. Holds initially and is preserved by every event. -/
def FlagInv (st : InvState) : Prop :=
  st.resolvedFlag = true → st.result.isSome = true

/-- A concrete waiting session used by C10's witness. -/
def waitingSessionExample : InteractiveSession :=
  { id := "p_1", phone := "p", process := some 0, command := "ssh u@h",
    isWaitingForInput := true, createdAt := 1, lastActivity := 1 }

/-- A concrete world whose only session is `waitingSessionExample`. -/
def waitingWorldExample : World :=
  { mgr := { sessions := [("p_1", waitingSessionExample)] },
    procs := [{ pid := 0 }], nextPid := 1 }

/-- The output of an ssh session that prompted three times and was denied
twice, as C4's witness observes it. -/
def sshFailChunk : String :=
  "u@h's password: \nPermission denied, please try again.\nu@h's password: \nPermission denied, please try again.\nu@h's password: "

/-- An expired session record for C8's witness (idle since time 0). -/
def expiredSessionExample : InteractiveSession :=
  { id := "p_9", phone := "p", process := some 0, command := "ssh u@h",
    isWaitingForInput := false, createdAt := 0, lastActivity := 0 }

/-- A world holding exactly the expired session and its live process. -/
def expiredWorldExample : World :=
  { mgr := { sessions := [("p_9", expiredSessionExample)] },
    procs := [{ pid := 0 }], nextPid := 1 }

/-! ## Helper lemmas -/

theorem isBlocked_of_mem (command : String)
    (h : ∃ part ∈ splitSep (jsTrim command), part ∈ BLOCKED_COMMANDS) :
    isBlocked command = true := by
  unfold isBlocked
  rw [List.any_eq_true]
  obtain ⟨part, hmem, hin⟩ := h
  refine ⟨part, hmem, ?_⟩
  simpa using hin

theorem asciiLower_eq_self (c : Char) (h : ¬(65 ≤ c.toNat ∧ c.toNat ≤ 90)) :
    asciiLower c = c := by
  unfold asciiLower
  rw [if_neg]
  simpa [Bool.and_eq_true] using h

theorem asciiLower_sep (c : Char) (h : isSepChar c = true) : asciiLower c = c := by
  apply asciiLower_eq_self
  intro hc
  simp only [isSepChar, jsIsWs, Bool.or_eq_true, decide_eq_true_eq,
    Bool.and_eq_true] at h
  omega

theorem isSepChar_false_of_lower (c : Char)
    (h : isSepChar (asciiLower c) = false) : isSepChar c = false := by
  by_contra hc
  rw [Bool.not_eq_false] at hc
  rw [asciiLower_sep c hc] at h
  rw [hc] at h
  exact absurd h (by decide)

theorem jsIsWs_false_of_sep_false (c : Char) (h : isSepChar c = false) :
    jsIsWs c = false := by
  by_contra hw
  rw [Bool.not_eq_false] at hw
  have : isSepChar c = true := by simp [isSepChar, hw]
  rw [this] at h
  exact absurd h (by decide)

theorem splitSepAux_no_sep (t : List Char) :
    ∀ acc, (∀ c ∈ t, isSepChar c = false) →
      splitSepAux t (some acc) = [String.mk (acc.reverse ++ t)] := by
  induction t with
  | nil => intro acc _; simp [splitSepAux]
  | cons c t ih =>
    intro acc h
    have hc : isSepChar c = false := h c (by simp)
    simp only [splitSepAux, hc, Bool.false_eq_true, if_false]
    rw [ih (c :: acc) fun d hd => h d (by simp [hd])]
    simp

theorem splitSep_single (s : String) (h : ∀ c ∈ s.data, isSepChar c = false) :
    splitSep s = [s] := by
  unfold splitSep
  rw [splitSepAux_no_sep s.data [] h]
  rfl

theorem dropWhile_all_false {p : Char → Bool} {l : List Char}
    (h : ∀ c ∈ l, p c = false) : l.dropWhile p = l := by
  cases l with
  | nil => rfl
  | cons c t => simp [List.dropWhile, h c (by simp)]

theorem jsTrim_eq_self (s : String) (h : ∀ c ∈ s.data, jsIsWs c = false) :
    jsTrim s = s := by
  unfold jsTrim jsTrimList
  rw [dropWhile_all_false h,
    dropWhile_all_false fun c hc => h c (List.mem_reverse.mp hc),
    List.reverse_reverse]

theorem killProc_stdin (sig : String) (p : ChildProc) :
    (killProc sig p).stdinData = p.stdinData := by
  unfold killProc; split <;> rfl

theorem updProc_if_pid (sig : String) (p : ChildProc) (pid2 : Nat) :
    (if p.pid = pid2 then killProc sig p else p).pid = p.pid := by
  split
  · unfold killProc; split <;> rfl
  · rfl

theorem getProc_updProc_kill (w : World) (pid2 pid : Nat) (sig : String) :
    getProc (updProc w pid2 (killProc sig)) pid =
      (getProc w pid).map fun p => if p.pid = pid2 then killProc sig p else p := by
  unfold getProc updProc
  rw [List.find?_map]
  have hpred : ((fun p => decide (p.pid = pid)) ∘
      fun p => if p.pid = pid2 then killProc sig p else p) =
      fun p : ChildProc => decide (p.pid = pid) := by
    funext p
    simp [Function.comp, updProc_if_pid]
  rw [hpred]

theorem getProc_endSession_stdin (phone : String) (w : World) (pid : Nat)
    (p : ChildProc) (h : getProc (endSession phone w) pid = some p) :
    ∃ p0, getProc w pid = some p0 ∧ p.stdinData = p0.stdinData := by
  unfold endSession at h
  split at h
  · exact ⟨p, h, rfl⟩
  · split at h
    · split at h
      · split at h
        · have h2 : getProc (updProc w _ (killProc "SIGTERM")) pid = some p := h
          rw [getProc_updProc_kill] at h2
          cases hg0 : getProc w pid with
          | none => rw [hg0] at h2; exact absurd h2 (by intro hco; cases hco)
          | some p0 =>
            rw [hg0] at h2
            rw [Option.map_some'] at h2
            refine ⟨p0, rfl, ?_⟩
            injection h2 with h3
            rw [← h3]
            split
            · rw [killProc_stdin]
            · rfl
        · exact ⟨p, h, rfl⟩
      · exact ⟨p, h, rfl⟩
    · exact ⟨p, h, rfl⟩

theorem mapGet_mapDelete_self (k : String) (m : List (String × InteractiveSession)) :
    mapGet k (mapDelete k m) = none := by
  induction m with
  | nil => rfl
  | cons kv rest ih =>
    obtain ⟨k0, v0⟩ := kv
    by_cases hk : k0 = k
    · have he : mapDelete k ((k0, v0) :: rest) = mapDelete k rest := by
        simp [mapDelete, List.filter, hk]
      rw [he]
      exact ih
    · have he : mapDelete k ((k0, v0) :: rest) = (k0, v0) :: mapDelete k rest := by
        simp [mapDelete, List.filter, hk]
      rw [he]
      unfold mapGet
      rw [if_neg hk]
      exact ih

theorem mapGet_mapDelete_some (k id : String) (m : List (String × InteractiveSession))
    (s : InteractiveSession) (h : mapGet k (mapDelete id m) = some s) :
    mapGet k m = some s := by
  induction m with
  | nil => exact absurd h (by intro hco; cases hco)
  | cons kv rest ih =>
    obtain ⟨k0, v0⟩ := kv
    by_cases hid : k0 = id
    · have he : mapDelete id ((k0, v0) :: rest) = mapDelete id rest := by
        simp [mapDelete, List.filter, hid]
      rw [he] at h
      unfold mapGet
      by_cases hk : k0 = k
      · rw [← hk, hid] at h
        rw [mapGet_mapDelete_self] at h
        exact absurd h (by intro hco; cases hco)
      · rw [if_neg hk]
        exact ih h
    · have he : mapDelete id ((k0, v0) :: rest) = (k0, v0) :: mapDelete id rest := by
        simp [mapDelete, List.filter, hid]
      rw [he] at h
      unfold mapGet at h ⊢
      by_cases hk : k0 = k
      · rw [if_pos hk] at h ⊢
        exact h
      · rw [if_neg hk] at h ⊢
        exact ih h

theorem getProc_mgr_update (w2 : World) (m : SessionManager) (pid : Nat) :
    getProc { w2 with mgr := m } pid = getProc w2 pid := rfl

theorem getProc_pid_eq (w : World) (pid : Nat) (p : ChildProc)
    (h : getProc w pid = some p) : p.pid = pid := by
  unfold getProc at h
  have h2 := List.find?_some h
  simpa using h2

theorem killProc_not_exited (sig : String) (p : ChildProc) (h : p.exited = false) :
    killProc sig p = { p with killed := true, signals := p.signals ++ [sig] } := by
  unfold killProc
  rw [if_neg]
  rw [h]
  exact fun hco => nomatch hco

theorem endSession_proc (ph : String) (w : World) (pid : Nat) (p : ChildProc)
    (h : getProc w pid = some p) :
    getProc (endSession ph w) pid = some p ∨
      getProc (endSession ph w) pid = some (killProc "SIGTERM" p) := by
  unfold endSession
  split
  · exact Or.inl h
  · split
    · split
      · split
        · rw [getProc_mgr_update, getProc_updProc_kill, h, Option.map_some']
          split
          · exact Or.inr rfl
          · exact Or.inl rfl
        · exact Or.inl h
      · exact Or.inl h
    · exact Or.inl h

theorem sessions_endSession (ph : String) (w : World) :
    (endSession ph w).mgr.sessions = w.mgr.sessions ∨
      ∃ s0, getSession ph w.mgr = some s0 ∧
        (endSession ph w).mgr.sessions = mapDelete s0.id w.mgr.sessions := by
  unfold endSession
  split
  · exact Or.inl rfl
  · rename_i s0 hg
    refine Or.inr ⟨s0, hg, ?_⟩
    split
    · split
      · split
        · rfl
        · rfl
      · rfl
    · rfl

theorem listInfix_of_countOccAux (pat : List Char) (hne : pat ≠ []) :
    ∀ s : List Char, 0 < countOccAux pat s 0 → listInfix pat s = true := by
  intro s
  induction s with
  | nil => intro h; simp [countOccAux] at h
  | cons c t ih =>
    intro h
    rw [countOccAux] at h
    split at h
    · rename_i hp
      rw [Bool.and_eq_true] at hp
      unfold listInfix
      rw [hp.1]
      rfl
    · unfold listInfix
      rw [ih h]
      simp

theorem tryResolve_world (v : String) (stX : InvState) :
    (tryResolve v stX).world = stX.world := by
  unfold tryResolve; split <;> rfl

theorem tryResolve_flag (v : String) (stX : InvState) :
    (tryResolve v stX).resolvedFlag = stX.resolvedFlag := by
  unfold tryResolve; split <;> rfl

theorem tryResolve_result_some (v : String) (stX : InvState) (r : String)
    (h : stX.result = some r) : (tryResolve v stX).result = some r := by
  unfold tryResolve; rw [h]; exact h

theorem tryResolve_result_none (v : String) (stX : InvState)
    (h : stX.result = none) : (tryResolve v stX).result = some v := by
  unfold tryResolve; rw [h]

theorem sessions_endSession_some (ph : String) (w : World) (s0 : InteractiveSession)
    (hg : getSession ph w.mgr = some s0) :
    (endSession ph w).mgr.sessions = mapDelete s0.id w.mgr.sessions := by
  unfold endSession
  rw [hg]
  split
  · rename_i heq
    cases heq
  · rename_i b heq
    injection heq with hb
    subst hb
    split
    · split
      · split
        · rfl
        · rfl
      · rfl
    · rfl

theorem sessions_cleanupStep (now : Nat) (acc : World)
    (kv : String × InteractiveSession) :
    (cleanupStep now acc kv).mgr.sessions =
      if now - kv.2.lastActivity > SESSION_TIMEOUT then mapDelete kv.1 acc.mgr.sessions
      else acc.mgr.sessions := by
  by_cases hc : now - kv.2.lastActivity > SESSION_TIMEOUT
  · rw [if_pos hc]
    unfold cleanupStep
    rw [if_pos hc]
    split
    · split
      · split
        · rfl
        · rfl
      · rfl
    · rfl
  · rw [if_neg hc]
    unfold cleanupStep
    rw [if_neg hc]

theorem cleanupStep_proc_killed (now : Nat) (acc : World)
    (kv : String × InteractiveSession) (pid : Nat)
    (h : ∃ q, getProc acc pid = some q ∧ q.killed = true ∧ "SIGTERM" ∈ q.signals) :
    ∃ q, getProc (cleanupStep now acc kv) pid = some q ∧ q.killed = true ∧
      "SIGTERM" ∈ q.signals := by
  obtain ⟨q, hq, hk, hs⟩ := h
  unfold cleanupStep
  split
  · split
    · split
      · split
        · rw [getProc_mgr_update, getProc_updProc_kill, hq, Option.map_some']
          refine ⟨_, rfl, ?_, ?_⟩
          · split
            · unfold killProc
              split
              · exact hk
              · rfl
            · exact hk
          · split
            · unfold killProc
              split
              · exact hs
              · simp [hs]
            · exact hs
        · exact ⟨q, hq, hk, hs⟩
      · exact ⟨q, hq, hk, hs⟩
    · exact ⟨q, hq, hk, hs⟩
  · exact ⟨q, hq, hk, hs⟩

theorem cleanupStep_proc_alive (now : Nat) (acc : World)
    (kv : String × InteractiveSession) (pid : Nat)
    (h : ∃ q, getProc acc pid = some q ∧ q.exited = false ∧
      (q.killed = true → "SIGTERM" ∈ q.signals)) :
    ∃ q, getProc (cleanupStep now acc kv) pid = some q ∧ q.exited = false ∧
      (q.killed = true → "SIGTERM" ∈ q.signals) := by
  obtain ⟨q, hq, hx, hks⟩ := h
  unfold cleanupStep
  split
  · split
    · split
      · split
        · rw [getProc_mgr_update, getProc_updProc_kill, hq, Option.map_some']
          refine ⟨_, rfl, ?_, ?_⟩
          · split
            · rw [killProc_not_exited _ _ hx]
              exact hx
            · exact hx
          · split
            · rw [killProc_not_exited _ _ hx]
              intro hco
              simp
            · exact hks
        · exact ⟨q, hq, hx, hks⟩
      · exact ⟨q, hq, hx, hks⟩
    · exact ⟨q, hq, hx, hks⟩
  · exact ⟨q, hq, hx, hks⟩

theorem cleanupStep_kills (now : Nat) (acc : World)
    (kv : String × InteractiveSession) (pid : Nat)
    (hexp : now - kv.2.lastActivity > SESSION_TIMEOUT)
    (hpid : kv.2.process = some pid)
    (h : ∃ q, getProc acc pid = some q ∧ q.exited = false ∧
      (q.killed = true → "SIGTERM" ∈ q.signals)) :
    ∃ q, getProc (cleanupStep now acc kv) pid = some q ∧ q.killed = true ∧
      "SIGTERM" ∈ q.signals := by
  obtain ⟨q, hq, hx, hks⟩ := h
  unfold cleanupStep
  rw [if_pos hexp]
  simp only [hpid, hq]
  by_cases hk : q.killed
  · rw [hk]
    simp only [Bool.not_true, Bool.false_eq_true, if_false]
    exact ⟨q, hq, hk, hks hk⟩
  · rw [Bool.not_eq_true] at hk
    rw [hk]
    simp only [Bool.not_false, if_true]
    rw [getProc_mgr_update, getProc_updProc_kill, hq, Option.map_some']
    rw [getProc_pid_eq _ _ _ hq]
    simp only [if_pos rfl]
    refine ⟨killProc "SIGTERM" q, rfl, ?_, ?_⟩
    · rw [killProc_not_exited _ _ hx]
    · rw [killProc_not_exited _ _ hx]
      simp

theorem cleanupFold_proc_killed (now : Nat) :
    ∀ (kvs : List (String × InteractiveSession)) (acc : World) (pid : Nat),
      (∃ q, getProc acc pid = some q ∧ q.killed = true ∧ "SIGTERM" ∈ q.signals) →
      ∃ q, getProc (kvs.foldl (cleanupStep now) acc) pid = some q ∧
        q.killed = true ∧ "SIGTERM" ∈ q.signals := by
  intro kvs
  induction kvs with
  | nil => intro acc pid h; exact h
  | cons kv rest ih =>
    intro acc pid h
    exact ih (cleanupStep now acc kv) pid (cleanupStep_proc_killed now acc kv pid h)

theorem cleanupFold_kills (now : Nat) :
    ∀ (kvs : List (String × InteractiveSession)) (acc : World)
      (kv : String × InteractiveSession) (pid : Nat), kv ∈ kvs →
      now - kv.2.lastActivity > SESSION_TIMEOUT →
      kv.2.process = some pid →
      (∃ q, getProc acc pid = some q ∧ q.exited = false ∧
        (q.killed = true → "SIGTERM" ∈ q.signals)) →
      ∃ q, getProc (kvs.foldl (cleanupStep now) acc) pid = some q ∧
        q.killed = true ∧ "SIGTERM" ∈ q.signals := by
  intro kvs
  induction kvs with
  | nil => intro acc kv pid hmem; exact absurd hmem (List.not_mem_nil kv)
  | cons kv0 rest ih =>
    intro acc kv pid hmem hexp hpid h
    rcases List.mem_cons.mp hmem with heq | hmem2
    · subst heq
      exact cleanupFold_proc_killed now rest (cleanupStep now acc kv) pid
        (cleanupStep_kills now acc kv pid hexp hpid h)
    · exact ih (cleanupStep now acc kv0) kv pid hmem2 hexp hpid
        (cleanupStep_proc_alive now acc kv0 pid h)

theorem sessions_cleanupFold (now : Nat) :
    ∀ (kvs : List (String × InteractiveSession)) (acc : World),
      (kvs.foldl (cleanupStep now) acc).mgr.sessions =
        acc.mgr.sessions.filter fun kv2 =>
          !decide (kv2.1 ∈ (kvs.filter fun kv =>
            decide (now - kv.2.lastActivity > SESSION_TIMEOUT)).map Prod.fst) := by
  intro kvs
  induction kvs with
  | nil =>
    intro acc
    simp
  | cons kv rest ih =>
    intro acc
    rw [List.foldl_cons, ih (cleanupStep now acc kv), sessions_cleanupStep]
    by_cases hc : now - kv.2.lastActivity > SESSION_TIMEOUT
    · rw [if_pos hc]
      unfold mapDelete
      rw [List.filter_filter]
      have hl : (kv :: rest).filter (fun kv =>
          decide (now - kv.2.lastActivity > SESSION_TIMEOUT)) =
          kv :: rest.filter (fun kv =>
            decide (now - kv.2.lastActivity > SESSION_TIMEOUT)) := by
        simp [List.filter, hc]
      rw [hl]
      apply List.filter_congr
      intro kv2 _
      by_cases h12 : kv2.1 = kv.1 <;> simp [h12]
    · rw [if_neg hc]
      have hl : (kv :: rest).filter (fun kv =>
          decide (now - kv.2.lastActivity > SESSION_TIMEOUT)) =
          rest.filter (fun kv =>
            decide (now - kv.2.lastActivity > SESSION_TIMEOUT)) := by
        simp [List.filter, hc]
      rw [hl]

theorem cleanup_remaining_not_expired (now : Nat) (w : World) :
    ∀ kv2 ∈ (cleanupExpiredSessions now w).mgr.sessions,
      now - kv2.2.lastActivity ≤ SESSION_TIMEOUT := by
  intro kv2 hmem
  unfold cleanupExpiredSessions at hmem
  rw [sessions_cleanupFold] at hmem
  rw [List.mem_filter] at hmem
  obtain ⟨hmem0, hpred⟩ := hmem
  by_contra hgt
  rw [Nat.not_le] at hgt
  have hin : kv2 ∈ w.mgr.sessions.filter fun kv =>
      decide (now - kv.2.lastActivity > SESSION_TIMEOUT) := by
    rw [List.mem_filter]
    exact ⟨hmem0, by simpa using hgt⟩
  have hkey : kv2.1 ∈ (w.mgr.sessions.filter fun kv =>
      decide (now - kv.2.lastActivity > SESSION_TIMEOUT)).map Prod.fst :=
    List.mem_map_of_mem Prod.fst hin
  rw [Bool.not_eq_true', decide_eq_false_iff_not] at hpred
  exact hpred hkey

theorem cleanup_singleton_eq_end (now : Nat) (w : World) (s : InteractiveSession)
    (hs : w.mgr.sessions = [(s.id, s)])
    (hexp : now - s.lastActivity > SESSION_TIMEOUT) :
    cleanupExpiredSessions now w = endSession s.phone w := by
  have hg : getSession s.phone w.mgr = some s := by
    unfold getSession
    rw [hs]
    simp
  unfold cleanupExpiredSessions endSession
  rw [hs, hg]
  rw [List.foldl_cons, List.foldl_nil]
  unfold cleanupStep
  rw [if_pos hexp]
  cases hsp : s.process with
  | none => simp [hsp, hs]
  | some pid =>
    simp only [hsp]
    cases hgp : getProc w pid with
    | none => simp [hgp, hs]
    | some p => simp [hgp, hs]

theorem cleanup_singleton_no_session (now : Nat) (w : World) (s : InteractiveSession)
    (hs : w.mgr.sessions = [(s.id, s)])
    (hexp : now - s.lastActivity > SESSION_TIMEOUT) :
    getSession s.phone (cleanupExpiredSessions now w).mgr = none ∧
    executeCommandAction "sessions" s.phone (cleanupExpiredSessions now w) =
      (.sessionsInfo noActiveSessionsMessage, cleanupExpiredSessions now w) := by
  have hnil : (cleanupExpiredSessions now w).mgr.sessions = [] := by
    unfold cleanupExpiredSessions
    rw [hs, List.foldl_cons, List.foldl_nil, sessions_cleanupStep, if_pos hexp, hs]
    simp [mapDelete]
  have hnone : getSession s.phone (cleanupExpiredSessions now w).mgr = none := by
    unfold getSession
    rw [hnil]
    rfl
  refine ⟨hnone, ?_⟩
  unfold executeCommandAction
  split
  · rename_i hc
    exact absurd hc (by decide)
  split
  · rename_i hc
    exact absurd hc (by decide)
  split
  · rw [hnone]
  · rename_i hc
    exact absurd (by decide) hc

theorem mem_mapSet (k : String) (v : InteractiveSession)
    (m : List (String × InteractiveSession)) :
    ∀ kv ∈ mapSet k v m, kv ∈ m ∨ kv = (k, v) := by
  induction m with
  | nil =>
    intro kv hkv
    simp [mapSet] at hkv
    exact Or.inr hkv
  | cons kv0 rest ih =>
    intro kv hkv
    unfold mapSet at hkv
    by_cases hk : kv0.1 = k
    · rw [if_pos hk] at hkv
      rcases List.mem_cons.mp hkv with h | h
      · exact Or.inr h
      · exact Or.inl (List.mem_cons_of_mem kv0 h)
    · rw [if_neg hk] at hkv
      rcases List.mem_cons.mp hkv with h | h
      · exact Or.inl (h ▸ List.mem_cons_self kv0 rest)
      · rcases ih kv h with h2 | h2
        · exact Or.inl (List.mem_cons_of_mem kv0 h2)
        · exact Or.inr h2

theorem mapGet_mem (k : String) (m : List (String × InteractiveSession))
    (v : InteractiveSession) (h : mapGet k m = some v) : (k, v) ∈ m := by
  induction m with
  | nil => cases h
  | cons kv0 rest ih =>
    unfold mapGet at h
    by_cases hk : kv0.1 = k
    · rw [if_pos hk] at h
      injection h with h2
      subst h2
      rw [← hk]
      exact List.mem_cons_self kv0 rest
    · rw [if_neg hk] at h
      exact List.mem_cons_of_mem kv0 (ih h)

theorem mapGet_mapSet_self (k : String) (v : InteractiveSession)
    (m : List (String × InteractiveSession)) : mapGet k (mapSet k v m) = some v := by
  induction m with
  | nil => simp [mapSet, mapGet]
  | cons kv0 rest ih =>
    unfold mapSet
    by_cases hk : kv0.1 = k
    · rw [if_pos hk]
      unfold mapGet
      rw [if_pos rfl]
    · rw [if_neg hk]
      unfold mapGet
      rw [if_neg hk]
      exact ih

theorem mem_keys_mapSet (a k : String) (v : InteractiveSession)
    (m : List (String × InteractiveSession))
    (h : a ∈ (mapSet k v m).map Prod.fst) : a ∈ m.map Prod.fst ∨ a = k := by
  rcases List.mem_map.mp h with ⟨kv, hkv, hfst⟩
  rcases mem_mapSet k v m kv hkv with h2 | h2
  · exact Or.inl (hfst ▸ List.mem_map_of_mem Prod.fst h2)
  · subst h2
    exact Or.inr hfst.symm

theorem mapSet_keys_nodup (k : String) (v : InteractiveSession)
    (m : List (String × InteractiveSession))
    (h : (m.map Prod.fst).Nodup) : ((mapSet k v m).map Prod.fst).Nodup := by
  induction m with
  | nil => simp [mapSet]
  | cons kv0 rest ih =>
    unfold mapSet
    rw [List.map_cons, List.nodup_cons] at h
    by_cases hk : kv0.1 = k
    · rw [if_pos hk]
      rw [List.map_cons, List.nodup_cons]
      exact ⟨hk ▸ h.1, h.2⟩
    · rw [if_neg hk]
      rw [List.map_cons, List.nodup_cons]
      refine ⟨?_, ih h.2⟩
      intro hmem
      rcases mem_keys_mapSet kv0.1 k v rest hmem with h2 | h2
      · exact h.1 h2
      · exact hk h2

theorem countP_two {α : Type} (p : α → Bool) (l : List α) (a b : α) (ha : a ∈ l)
    (hb : b ∈ l) (hne : a ≠ b) (hpa : p a = true) (hpb : p b = true) :
    2 ≤ l.countP p := by
  obtain ⟨l1, l2, rfl⟩ := List.append_of_mem ha
  rw [List.countP_append, List.countP_cons, hpa, if_pos rfl]
  rcases List.mem_append.mp hb with h2 | h2
  · have hpos : 0 < l1.countP p := List.countP_pos.mpr ⟨b, h2, hpb⟩
    omega
  · rcases List.mem_cons.mp h2 with h3 | h3
    · exact absurd h3.symm hne
    · have hpos : 0 < l2.countP p := List.countP_pos.mpr ⟨b, h3, hpb⟩
      omega

theorem sessionsOf_length_countP (ph : String) (l : List (String × InteractiveSession)) :
    (sessionsOf ph { sessions := l }).length =
      l.countP fun kv => decide (kv.2.phone = ph) := by
  unfold sessionsOf
  rw [← List.countP_eq_length_filter, List.countP_map]
  rfl

theorem countP_mapSet_le (ph k : String) (v : InteractiveSession)
    (m : List (String × InteractiveSession)) :
    (mapSet k v m).countP (fun kv => decide (kv.2.phone = ph)) ≤
      m.countP (fun kv => decide (kv.2.phone = ph)) +
        (if v.phone = ph then 1 else 0) := by
  induction m with
  | nil =>
    simp only [mapSet, List.countP_cons, List.countP_nil]
    by_cases hv : v.phone = ph
    · simp [hv]
    · simp [hv]
  | cons kv0 rest ih =>
    unfold mapSet
    by_cases hk : kv0.1 = k
    · rw [if_pos hk]
      rw [List.countP_cons, List.countP_cons]
      by_cases hv : v.phone = ph <;> by_cases h0 : kv0.2.phone = ph <;>
        simp [hv, h0] <;> omega
    · rw [if_neg hk]
      rw [List.countP_cons, List.countP_cons]
      by_cases h0 : kv0.2.phone = ph <;> simp [h0] <;> omega

theorem countP_mapSet_same_phone (ph k : String) (v v2 : InteractiveSession)
    (m : List (String × InteractiveSession)) (hget : mapGet k m = some v)
    (hp : v2.phone = v.phone) :
    (mapSet k v2 m).countP (fun kv => decide (kv.2.phone = ph)) =
      m.countP (fun kv => decide (kv.2.phone = ph)) := by
  induction m with
  | nil => cases hget
  | cons kv0 rest ih =>
    unfold mapGet at hget
    unfold mapSet
    by_cases hk : kv0.1 = k
    · rw [if_pos hk] at hget ⊢
      injection hget with hv
      rw [List.countP_cons, List.countP_cons]
      simp only [hp, hv]
    · rw [if_neg hk] at hget ⊢
      rw [List.countP_cons, List.countP_cons, ih hget]

theorem countP_mapDelete_le (p : String × InteractiveSession → Bool)
    (k : String) (m : List (String × InteractiveSession)) :
    (mapDelete k m).countP p ≤ m.countP p :=
  List.Sublist.countP_le p (List.filter_sublist m)

theorem getSession_fold_isSome (ph : String) (l : List InteractiveSession) :
    ∀ b : Option InteractiveSession, b.isSome = true →
      (l.foldl (fun best s => if s.phone = ph then (match best with
          | none => some s
          | some b2 => if s.lastActivity > b2.lastActivity then some s else some b2)
        else best) b).isSome = true := by
  induction l with
  | nil => intro b hb; exact hb
  | cons x rest ih =>
    intro b hb
    rw [List.foldl_cons]
    apply ih
    by_cases hx : x.phone = ph
    · rw [if_pos hx]
      cases b with
      | none => cases hb
      | some b2 =>
        show (if x.lastActivity > b2.lastActivity then some x else some b2).isSome = true
        split
        · rfl
        · rfl
    · rw [if_neg hx]
      exact hb

theorem getSession_fold_mem_isSome (ph : String) (l : List InteractiveSession) :
    ∀ (b : Option InteractiveSession) (s : InteractiveSession), s ∈ l → s.phone = ph →
      (l.foldl (fun best s => if s.phone = ph then (match best with
          | none => some s
          | some b2 => if s.lastActivity > b2.lastActivity then some s else some b2)
        else best) b).isSome = true := by
  induction l with
  | nil => intro b s hmem; exact absurd hmem (List.not_mem_nil s)
  | cons x rest ih =>
    intro b s hmem hph
    rcases List.mem_cons.mp hmem with heq | hmem2
    · subst heq
      rw [List.foldl_cons]
      apply getSession_fold_isSome
      rw [if_pos hph]
      cases b with
      | none => rfl
      | some b2 =>
        show (if s.lastActivity > b2.lastActivity then some s else some b2).isSome = true
        split
        · rfl
        · rfl
    · rw [List.foldl_cons]
      exact ih _ s hmem2 hph

theorem getSession_fold_spec (ph : String) (l : List InteractiveSession) :
    ∀ (b : Option InteractiveSession) (s : InteractiveSession),
      l.foldl (fun best s => if s.phone = ph then (match best with
          | none => some s
          | some b2 => if s.lastActivity > b2.lastActivity then some s else some b2)
        else best) b = some s →
      b = some s ∨ (s ∈ l ∧ s.phone = ph) := by
  induction l with
  | nil => intro b s h; exact Or.inl h
  | cons x rest ih =>
    intro b s h
    rw [List.foldl_cons] at h
    rcases ih _ s h with h2 | h2
    · by_cases hx : x.phone = ph
      · rw [if_pos hx] at h2
        cases b with
        | none =>
          have h3 : some x = some s := h2
          injection h3 with h4
          exact Or.inr ⟨h4 ▸ List.mem_cons_self x rest, h4 ▸ hx⟩
        | some b2 =>
          have h3 : (if x.lastActivity > b2.lastActivity then some x else some b2) =
              some s := h2
          split at h3
          · injection h3 with h4
            exact Or.inr ⟨h4 ▸ List.mem_cons_self x rest, h4 ▸ hx⟩
          · exact Or.inl h3
      · rw [if_neg hx] at h2
        exact Or.inl h2
    · exact Or.inr ⟨List.mem_cons_of_mem x h2.1, h2.2⟩

theorem getSession_some_spec (ph : String) (m : SessionManager)
    (s : InteractiveSession) (h : getSession ph m = some s) :
    s.phone = ph ∧ ∃ kv ∈ m.sessions, kv.2 = s := by
  unfold getSession at h
  rcases getSession_fold_spec ph _ none s h with h2 | h2
  · cases h2
  · obtain ⟨hmem, hph⟩ := h2
    rcases List.mem_map.mp hmem with ⟨kv, hkv, hsnd⟩
    exact ⟨hph, kv, hkv, hsnd⟩

theorem count_zero_of_getSession_none (ph : String) (m : SessionManager)
    (h : getSession ph m = none) :
    m.sessions.countP (fun kv => decide (kv.2.phone = ph)) = 0 := by
  rw [List.countP_eq_zero]
  intro kv hkv hp
  have hph : kv.2.phone = ph := by simpa using hp
  have hs : (getSession ph m).isSome = true := by
    unfold getSession
    exact getSession_fold_mem_isSome ph _ none kv.2
      (List.mem_map_of_mem Prod.snd hkv) hph
  rw [h] at hs
  cases hs

theorem countP_endSession_self (ph : String) (w : World) (hwf : StoreWF w.mgr)
    (hle : w.mgr.sessions.countP (fun kv => decide (kv.2.phone = ph)) ≤ 1) :
    (endSession ph w).mgr.sessions.countP (fun kv => decide (kv.2.phone = ph)) = 0 := by
  cases hg : getSession ph w.mgr with
  | none =>
    have he : endSession ph w = w := by unfold endSession; rw [hg]
    rw [he]
    exact count_zero_of_getSession_none ph w.mgr hg
  | some s0 =>
    rw [sessions_endSession_some ph w s0 hg, List.countP_eq_zero]
    intro kv2 hkv2 hp2
    have hkv2mem : kv2 ∈ w.mgr.sessions := List.mem_of_mem_filter hkv2
    have hkey2 : kv2.1 ≠ s0.id := by
      have h3 := List.of_mem_filter hkv2
      simpa using h3
    obtain ⟨hph0, kv, hkv, hkv2eq⟩ := getSession_some_spec ph w.mgr s0 hg
    have hkey : kv.1 = s0.id := by rw [hwf.2 kv hkv, hkv2eq]
    have hne : kv ≠ kv2 := fun he => hkey2 (he ▸ hkey)
    have h2 := countP_two (fun kv => decide (kv.2.phone = ph)) w.mgr.sessions kv kv2
      hkv hkv2mem hne (by simp [hkv2eq, hph0]) hp2
    omega

theorem StoreWF_mapDelete (k : String) (m : SessionManager) (h : StoreWF m) :
    StoreWF { sessions := mapDelete k m.sessions } := by
  constructor
  · exact List.Nodup.sublist (List.Sublist.map Prod.fst (List.filter_sublist m.sessions)) h.1
  · intro kv hkv
    exact h.2 kv (List.mem_of_mem_filter hkv)

theorem StoreWF_endSession (ph : String) (w : World) (h : StoreWF w.mgr) :
    StoreWF (endSession ph w).mgr := by
  cases hg : getSession ph w.mgr with
  | none =>
    have he : endSession ph w = w := by unfold endSession; rw [hg]
    rw [he]
    exact h
  | some s0 =>
    have hse := sessions_endSession_some ph w s0 hg
    constructor
    · rw [hse]
      exact (StoreWF_mapDelete s0.id w.mgr h).1
    · intro kv hkv
      rw [hse] at hkv
      exact h.2 kv (List.mem_of_mem_filter hkv)

theorem StoreWF_mapSet_id (k : String) (v : InteractiveSession) (m : SessionManager)
    (h : StoreWF m) (hk : k = v.id) :
    StoreWF { sessions := mapSet k v m.sessions } := by
  constructor
  · exact mapSet_keys_nodup k v m.sessions h.1
  · intro kv hkv
    rcases mem_mapSet k v m.sessions kv hkv with h2 | h2
    · exact h.2 kv h2
    · rw [h2]
      exact hk

theorem sessionsOf_count (ph : String) (m : SessionManager) :
    (sessionsOf ph m).length = m.sessions.countP fun kv => decide (kv.2.phone = ph) :=
  sessionsOf_length_countP ph m.sessions

theorem StoreWF_createSession (phone command : String) (now : Nat) (m : SessionManager)
    (h : StoreWF m) : StoreWF (createSession phone command now m).2 := by
  unfold createSession
  exact StoreWF_mapSet_id _ _ m h rfl

theorem StoreWF_setProcess (sessionId : String) (pid now : Nat) (m : SessionManager)
    (h : StoreWF m) : StoreWF (setProcess sessionId pid now m) := by
  unfold setProcess
  split
  · rename_i s hget
    have hid : sessionId = s.id := h.2 (sessionId, s) (mapGet_mem sessionId m.sessions s hget)
    exact StoreWF_mapSet_id _ _ m h hid
  · exact h

theorem countP_createSession (ph phone command : String) (now : Nat) (m : SessionManager) :
    (createSession phone command now m).2.sessions.countP
        (fun kv => decide (kv.2.phone = ph)) ≤
      m.sessions.countP (fun kv => decide (kv.2.phone = ph)) +
        (if phone = ph then 1 else 0) := by
  unfold createSession
  exact countP_mapSet_le ph _ _ m.sessions

theorem countP_setProcess (ph sessionId : String) (pid now : Nat) (m : SessionManager) :
    (setProcess sessionId pid now m).sessions.countP
        (fun kv => decide (kv.2.phone = ph)) =
      m.sessions.countP (fun kv => decide (kv.2.phone = ph)) := by
  unfold setProcess
  split
  · rename_i s hget
    exact countP_mapSet_same_phone ph sessionId s _ m.sessions hget rfl
  · rfl

theorem countP_endSession_le (p : String × InteractiveSession → Bool) (ph : String)
    (w : World) :
    (endSession ph w).mgr.sessions.countP p ≤ w.mgr.sessions.countP p := by
  rcases sessions_endSession ph w with h | ⟨s0, hg, h⟩
  · rw [h]
  · rw [h]
    exact countP_mapDelete_le p s0.id w.mgr.sessions

theorem startInteractive_invariant :
    ∀ (command phone : String) (now : Nat) (w : World) (ledger : DedupLedger),
      StoreWF w.mgr → AtMostOnePerCaller w.mgr →
      StoreWF (startInteractive command phone now w ledger).world.mgr ∧
        AtMostOnePerCaller (startInteractive command phone now w ledger).world.mgr := by
  intro command phone now w ledger hwf h1
  have hmgr : (startInteractive command phone now w ledger).world.mgr =
      setProcess (createSession phone command now (endSession phone w).mgr).1
        (endSession phone w).nextPid now
        (createSession phone command now (endSession phone w).mgr).2 := rfl
  rw [hmgr]
  have hwf1 := StoreWF_endSession phone w hwf
  have hwf2 := StoreWF_createSession phone command now (endSession phone w).mgr hwf1
  refine ⟨StoreWF_setProcess _ _ _ _ hwf2, ?_⟩
  intro ph
  rw [sessionsOf_count, countP_setProcess]
  have hc := countP_createSession ph phone command now (endSession phone w).mgr
  by_cases hph : phone = ph
  · subst hph
    have hb : w.mgr.sessions.countP (fun kv => decide (kv.2.phone = phone)) ≤ 1 := by
      have h2 := h1 phone
      rw [sessionsOf_count] at h2
      exact h2
    have h0 := countP_endSession_self phone w hwf hb
    rw [if_pos rfl] at hc
    omega
  · have hle := countP_endSession_le (fun kv => decide (kv.2.phone = ph)) phone w
    have h2 := h1 ph
    rw [sessionsOf_count] at h2
    rw [if_neg hph] at hc
    omega

theorem start_twice_scenario :
    ∀ (cmdA cmdB phone : String) (tA tB : Nat) (L1 L2 : DedupLedger),
      ((getProc (endSession phone (startInteractive cmdA phone tA {} L1).world)
          (startInteractive cmdA phone tA {} L1).pid).map ChildProc.signals =
        some ["SIGTERM"] ∧
        sessionsOf phone
          (endSession phone (startInteractive cmdA phone tA {} L1).world).mgr = []) ∧
      getSession phone (startInteractive cmdB phone tB
          (startInteractive cmdA phone tA {} L1).world L2).world.mgr =
        some { id := phone ++ "_" ++ toString tB, phone := phone,
               process := some (startInteractive cmdB phone tB
                 (startInteractive cmdA phone tA {} L1).world L2).pid,
               command := cmdB, isWaitingForInput := false,
               createdAt := tB, lastActivity := tB } ∧
      sessionsOf phone (startInteractive cmdB phone tB
          (startInteractive cmdA phone tA {} L1).world L2).world.mgr =
        [{ id := phone ++ "_" ++ toString tB, phone := phone,
           process := some (startInteractive cmdB phone tB
             (startInteractive cmdA phone tA {} L1).world L2).pid,
           command := cmdB, isWaitingForInput := false,
           createdAt := tB, lastActivity := tB }] ∧
      (getProc (startInteractive cmdB phone tB
          (startInteractive cmdA phone tA {} L1).world L2).world
        (startInteractive cmdA phone tA {} L1).pid).map ChildProc.signals =
        some ["SIGTERM"] := by
  intro cmdA cmdB phone tA tB L1 L2
  simp [startInteractive, endSession, createSession, getSession, setProcess,
    spawnProc, mapSet, mapGet, mapDelete, getProc, updProc, killProc, sessionsOf]

theorem checkForInputRequest_result (now : Nat) (stX : InvState) (r : String)
    (h : stX.result = some r) : (checkForInputRequest now stX).result = some r := by
  simp only [checkForInputRequest]
  repeat' split
  all_goals simp_all [tryResolve, sendMessage]

theorem onStdoutData_result (now : Nat) (chunk : String) (stX : InvState) (r : String)
    (h : stX.result = some r) : (onStdoutData now chunk stX).result = some r := by
  simp only [onStdoutData]
  repeat' split
  all_goals simp_all [tryResolve, sendMessage]

theorem onStderrData_result (chunk : String) (stX : InvState) (r : String)
    (h : stX.result = some r) : (onStderrData chunk stX).result = some r := by
  simp only [onStderrData]
  split
  · simp_all
  · exact h

theorem onGraceFire_result (now : Nat) (stX : InvState) (r : String)
    (h : stX.result = some r) : (onGraceFire now stX).result = some r := by
  simp only [onGraceFire]
  repeat' split
  all_goals simp_all [tryResolve, sendMessage]

theorem onExit_result (code : Option Int) (stX : InvState) (r : String)
    (h : stX.result = some r) : (onExit code stX).result = some r := by
  simp only [onExit]
  repeat' split
  all_goals simp_all [tryResolve]

theorem onError_result (message : String) (stX : InvState) (r : String)
    (h : stX.result = some r) : (onError message stX).result = some r := by
  simp only [onError]
  repeat' split
  all_goals simp_all [tryResolve]

theorem onInitialTimeout_result (now : Nat) (stX : InvState) (r : String)
    (h : stX.result = some r) : (onInitialTimeout now stX).result = some r := by
  simp only [onInitialTimeout]
  split
  · exact h
  · split
    · repeat' split
      all_goals simp_all [tryResolve, sendMessage]
    · exact checkForInputRequest_result now stX r h

theorem onSshTimeout_result (stX : InvState) (r : String)
    (h : stX.result = some r) : (onSshTimeout stX).result = some r := by
  simp only [onSshTimeout]
  repeat' split
  all_goals simp_all [tryResolve]

theorem istep_result (e : IEvent) (stX : InvState) (r : String)
    (h : stX.result = some r) : (istep e stX).result = some r := by
  cases e with
  | stdoutData now chunk => exact onStdoutData_result now chunk stX r h
  | stderrData chunk => exact onStderrData_result chunk stX r h
  | debounceFire now =>
    simp only [istep]
    split
    · exact checkForInputRequest_result now _ r h
    · exact h
  | graceFire now => exact onGraceFire_result now stX r h
  | initialTimeout now => exact onInitialTimeout_result now stX r h
  | exited code => exact onExit_result code stX r h
  | procError message => exact onError_result message stX r h
  | sshTimeout => exact onSshTimeout_result stX r h

theorem runTrace_result (events : List IEvent) :
    ∀ (stX : InvState) (r : String), stX.result = some r →
      (runTrace events stX).result = some r := by
  induction events with
  | nil => intro stX r h; exact h
  | cons e rest ih =>
    intro stX r h
    rw [runTrace, List.foldl_cons]
    exact ih _ r (istep_result e stX r h)

theorem dispatch_after_session_end (command phone : String) (w : World)
    (hb : isBlocked command = false)
    (he : jsLower command ≠ "exit") (hq : jsLower command ≠ "quit")
    (hs : jsLower command ≠ "sessions")
    (hg : getSession phone w.mgr = none)
    (hi : isInteractiveCommand command = false) :
    executeCommandAction command phone w = (.runNonInteractive command, w) := by
  simp [executeCommandAction, hb, he, hq, hs, hg, hi]

theorem handleInteractiveInput_gone_iff (session : InteractiveSession) (input : String)
    (now : Nat) (w : World) :
    (handleInteractiveInput session input now w).1 = InputOutcome.gone sessionGoneMessage ↔
      (session.process = none ∨
        ∃ pid, session.process = some pid ∧
          (getProc w pid = none ∨ (getProc w pid).map ChildProc.killed = some true)) := by
  unfold handleInteractiveInput
  cases hsp : session.process with
  | none => simp [hsp]
  | some pid =>
    cases hgp : getProc w pid with
    | none => simp [hsp, hgp]
    | some p =>
      cases hk : p.killed with
      | false => simp [hsp, hgp, hk]
      | true => simp [hsp, hgp, hk]

/-! ## Claim theorems -/

/-- Claim C3: for every command string whose whitespace/separator-delimited
parts (split on whitespace, `&`, `|`, `;`) contain a deny-listed token
(rm, mv, shutdown, reboot, halt, chmod, chown, del, dd, mkfs, fdisk,
parted), `executeCommand` answers the fixed rejection message and leaves the
world — sessions, process table, stdin streams — untouched: the dispatch
action is `.blocked`, so the spawning branches (`runInteractive`,
`runNonInteractive`, `routeInput`) are unreachable under this
precondition. -/
theorem blocked_token_rejected (command phone : String) (w : World)
    (h : ∃ part ∈ splitSep (jsTrim command), part ∈ BLOCKED_COMMANDS) :
    executeCommandAction command phone w = (.blocked, w) ∧
    dispatchResponse .blocked = some blockedMessage := by
  refine ⟨?_, rfl⟩
  simp [executeCommandAction, isBlocked_of_mem command h]

/-- Witness for C3 at the concrete command `"rm -rf /"`. -/
theorem blocked_token_rejected_witness :
    (∃ part ∈ splitSep (jsTrim "rm -rf /"), part ∈ BLOCKED_COMMANDS) ∧
    executeCommandAction "rm -rf /" "628123" {} = (.blocked, {}) ∧
    dispatchResponse .blocked = some blockedMessage := by
  have h : ∃ part ∈ splitSep (jsTrim "rm -rf /"), part ∈ BLOCKED_COMMANDS := by decide
  exact ⟨h, (blocked_token_rejected "rm -rf /" "628123" {} h).1,
    (blocked_token_rejected "rm -rf /" "628123" {} h).2⟩

/-- Counterexample for claim C5: the normalizer is not idempotent. On
`"a@b:~$ a"` the prompt regexes rewrite the line to `"$ a"`, which has no
important line left, so `cleanOutput` collapses it to the canonical prompt
marker `"$ "`; a second application strips the marker's trailing space and
returns `"$"`. -/
theorem cleanOutput_not_idempotent :
    cleanOutput (cleanOutput "a@b:~$ a") ≠ cleanOutput "a@b:~$ a" := by decide

/-- Claim C5 (amended): idempotence fails exactly at the
collapse-to-canonical-prompt case — whenever `cleanOutput x` returns the
canonical marker `"$ "`, a second application strips the marker's trailing
space and yields `"$"`, after which the value is fixed (the third
application changes nothing). -/
theorem cleanOutput_prompt_collapse (x : String) (h : cleanOutput x = "$ ") :
    cleanOutput (cleanOutput x) = "$" ∧
    cleanOutput (cleanOutput (cleanOutput x)) = "$" := by
  rw [h]
  exact ⟨by decide, by decide⟩

/-- Witness for C5's amended theorem at `"a@b:~$ a"`. -/
theorem cleanOutput_prompt_collapse_witness :
    cleanOutput "a@b:~$ a" = "$ " ∧
    cleanOutput (cleanOutput "a@b:~$ a") = "$" ∧
    cleanOutput (cleanOutput (cleanOutput "a@b:~$ a")) = "$" := by
  have h : cleanOutput "a@b:~$ a" = "$ " := by decide
  exact ⟨h, cleanOutput_prompt_collapse "a@b:~$ a" h⟩

/-- Claim C9: a command matching no interactive-command prefix — e.g.
`"echo hi"` — takes the one-shot non-interactive path: the dispatcher
answers `runNonInteractive` and leaves the world (hence the session store)
untouched, so no session is created and no classifier runs; on exit 0 the
result is the trimmed stdout (`"hi"`), and on a non-zero exit code the
result carries the exit code and the trimmed stderr. -/
theorem echo_non_interactive (phone : String) (w : World)
    (h : ∀ s ∈ getSession phone w.mgr, s.isWaitingForInput = false ∨ s.process = none) :
    executeCommandAction "echo hi" phone w = (.runNonInteractive "echo hi", w) ∧
    executeNonInteractiveCommand ⟨"hi\n", "", 0⟩ = "hi" ∧
    (∀ r : ProcOutcome, r.exitCode ≠ 0 →
      executeNonInteractiveCommand r =
        "❌ Error (Exit Code: " ++ toString r.exitCode ++ "):\n" ++ jsTrim r.stderr) := by
  refine ⟨?_, by decide, ?_⟩
  · unfold executeCommandAction
    split
    · rename_i hc; exact absurd hc (by decide)
    split
    · rename_i hc; exact absurd hc (by decide)
    split
    · rename_i hc; exact absurd hc (by decide)
    split
    · rename_i s hg
      have hd := h s (by rw [hg]; rfl)
      split
      · rename_i hc
        rw [Bool.and_eq_true] at hc
        rcases hd with hd | hd
        · rw [hd] at hc; exact absurd hc.1 (by simp)
        · rw [hd] at hc; exact absurd hc.2 (by simp)
      split
      · rename_i hc; exact absurd hc (by decide)
      rfl
    · split
      · rename_i hc; exact absurd hc (by decide)
      rfl
  · intro r hr
    unfold executeNonInteractiveCommand
    rw [if_pos hr]

/-- Witness for C9 in the empty world. -/
theorem echo_non_interactive_witness :
    executeCommandAction "echo hi" "628123" {} = (.runNonInteractive "echo hi", {}) ∧
    executeNonInteractiveCommand ⟨"hi\n", "", 0⟩ = "hi" ∧
    executeNonInteractiveCommand ⟨"", "boom", 1⟩ = "❌ Error (Exit Code: 1):\nboom" := by
  have h := echo_non_interactive "628123" {} (by intro s hs; simp [getSession] at hs)
  exact ⟨h.1, h.2.1, by decide⟩

/-- Claim C10: the deny-list check runs before waiting-session input
routing. For a caller whose session is `WaitingForInput` with a live
process, a reply whose separator-delimited tokens include a blocked word is
rejected outright: the dispatch action is `.blocked` with the rejection
message, the world is returned unchanged — nothing is written to the
process's stdin — and the caller's session record, including its
`isWaitingForInput` flag, is exactly as before. -/
theorem blocked_reply_while_waiting (reply phone : String) (w : World)
    (s : InteractiveSession) (pid : Nat)
    (hs : getSession phone w.mgr = some s)
    (hw : s.isWaitingForInput = true)
    (hp : s.process = some pid)
    (hb : ∃ part ∈ splitSep (jsTrim reply), part ∈ BLOCKED_COMMANDS) :
    executeCommandAction reply phone w = (.blocked, w) ∧
    dispatchResponse .blocked = some blockedMessage ∧
    getSession phone (executeCommandAction reply phone w).2.mgr = some s ∧
    s.isWaitingForInput = true := by
  have h1 : executeCommandAction reply phone w = (.blocked, w) := by
    simp [executeCommandAction, isBlocked_of_mem reply hb]
  exact ⟨h1, rfl, by rw [h1]; exact hs, hw⟩

/-- Witness for C10: a waiting ssh session and the reply `"hunter2 rm"` (a
password answer containing the standalone token `rm`). -/
theorem blocked_reply_while_waiting_witness :
    getSession "p" waitingWorldExample.mgr = some waitingSessionExample ∧
    executeCommandAction "hunter2 rm" "p" waitingWorldExample =
      (.blocked, waitingWorldExample) ∧
    getSession "p" (executeCommandAction "hunter2 rm" "p" waitingWorldExample).2.mgr =
      some waitingSessionExample := by
  have h := blocked_reply_while_waiting "hunter2 rm" "p" waitingWorldExample
    waitingSessionExample 0 (by decide) (by decide) (by decide) (by decide)
  exact ⟨by decide, h.1, h.2.2.1⟩

/-- Claim C7: the control directives `exit`/`quit` are recognized
case-insensitively on the whole message. For every caller and every world —
in particular one whose session is `WaitingForInput`, whatever the
process's output buffer holds — a message lower-casing to `"exit"` or
`"quit"` ends the session (`endSession`: SIGTERM to a live process, record
deleted) and answers the fixed acknowledgement; the directive is never
routed to `handleInteractiveInput`, and nothing is written to any process's
stdin (`endSession` preserves every surviving process's stdin stream). -/
theorem exit_directive_ends_session (command phone : String) (w : World)
    (h : jsLower command = "exit" ∨ jsLower command = "quit") :
    executeCommandAction command phone w = (.sessionEnded, endSession phone w) ∧
    dispatchResponse .sessionEnded = some sessionEndedMessage ∧
    (∀ pid p, getProc (endSession phone w) pid = some p →
      ∃ p0, getProc w pid = some p0 ∧ p.stdinData = p0.stdinData) := by
  have hmap : command.data.map asciiLower = "exit".data ∨
      command.data.map asciiLower = "quit".data := by
    rcases h with hx | hx
    · exact Or.inl (congrArg String.data hx)
    · exact Or.inr (congrArg String.data hx)
  have hsep : ∀ c ∈ command.data, isSepChar c = false := by
    intro c hc
    apply isSepChar_false_of_lower
    have hmem : asciiLower c ∈ command.data.map asciiLower :=
      List.mem_map_of_mem asciiLower hc
    rcases hmap with hd | hd
    · rw [hd] at hmem
      rw [show "exit".data = ['e', 'x', 'i', 't'] from rfl] at hmem
      simp only [List.mem_cons, List.not_mem_nil, or_false] at hmem
      rcases hmem with h1 | h1 | h1 | h1 <;> rw [h1] <;> decide
    · rw [hd] at hmem
      rw [show "quit".data = ['q', 'u', 'i', 't'] from rfl] at hmem
      simp only [List.mem_cons, List.not_mem_nil, or_false] at hmem
      rcases hmem with h1 | h1 | h1 | h1 <;> rw [h1] <;> decide
  have htrim : jsTrim command = command :=
    jsTrim_eq_self command fun c hc => jsIsWs_false_of_sep_false c (hsep c hc)
  have hsplit : splitSep (jsTrim command) = [command] := by
    rw [htrim]; exact splitSep_single command hsep
  have hblocked : isBlocked command = false := by
    unfold isBlocked
    rw [hsplit]
    simp only [List.any_cons, List.any_nil, Bool.or_false]
    by_contra hcon
    rw [Bool.not_eq_false] at hcon
    have hmem : command ∈ BLOCKED_COMMANDS := by simpa using hcon
    simp only [BLOCKED_COMMANDS, List.mem_cons, List.not_mem_nil, or_false] at hmem
    rcases hmem with rfl | rfl | rfl | rfl | rfl | rfl | rfl | rfl | rfl | rfl | rfl | rfl <;>
      rcases h with hx | hx <;> exact absurd hx (by decide)
  refine ⟨?_, rfl, fun pid p hp => getProc_endSession_stdin phone w pid p hp⟩
  rcases h with hx | hx <;> simp [executeCommandAction, hblocked, hx]

/-- Witness for C7: `"ExIt"` sent by a caller whose session is waiting for
input. -/
theorem exit_directive_ends_session_witness :
    (jsLower "ExIt" = "exit" ∨ jsLower "ExIt" = "quit") ∧
    executeCommandAction "ExIt" "p" waitingWorldExample =
      (.sessionEnded, endSession "p" waitingWorldExample) ∧
    dispatchResponse .sessionEnded = some sessionEndedMessage := by
  have h : jsLower "ExIt" = "exit" ∨ jsLower "ExIt" = "quit" := by decide
  have hmain := exit_directive_ends_session "ExIt" "p" waitingWorldExample h
  exact ⟨h, hmain.1, hmain.2.1⟩

theorem onStdoutData_password (t1 : Nat) (chunk : String) (st0 : InvState)
    (hout : st0.output = "")
    (hres : st0.resolvedFlag = false) (hr : st0.result = none)
    (hnofail : hasAuthFailureOutput chunk = false)
    (hpwd : jsIncludes (jsLower chunk) "password" = true)
    (hnopd : jsIncludes chunk "Permission denied" = false) :
    onStdoutData t1 chunk st0 =
      (if shouldSendMessage st0.phone (cleanOutput chunk) st0.ledger then
        { st0 with
            output := chunk, hasReceivedOutput := true,
            world := { st0.world with
                         mgr := setWaitingForInput st0.sessionId true t1 st0.world.mgr },
            notifications := st0.notifications ++
              [(st0.phone, sshPasswordRequiredMessage st0.command (cleanOutput chunk))],
            ledger := markMessageSent st0.phone (cleanOutput chunk) st0.ledger,
            resolvedFlag := true, result := some sshPasswordAck }
      else
        { st0 with
            output := chunk, hasReceivedOutput := true,
            world := { st0.world with
                         mgr := setWaitingForInput st0.sessionId true t1 st0.world.mgr },
            resolvedFlag := true, result := some sshPasswordAck }) := by
  unfold onStdoutData
  rw [hout]
  have he : ("" : String) ++ chunk = chunk := rfl
  rw [he]
  simp only [hnofail, Bool.and_false, Bool.false_eq_true, if_false,
    Bool.not_false, hpwd, hnopd, Bool.true_or, Bool.true_and, Bool.and_true,
    if_true, hres, hr]
  split
  · simp [sendMessage, tryResolve, hres, hr]
  · simp [sendMessage, tryResolve, hres, hr]

/-- Claim C6: for an ssh invocation whose process writes a password prompt
(e.g. `"user@host's password:"`) and nothing else, the stdout handler flips
the caller's session to waiting-for-input, sends one outbound notification
containing the cleaned password-prompt text — suppressed when the
de-duplication ledger already holds that fingerprint — and the start call's
immediate result is the short acknowledgement, not the transcript (the
example prompt survives `cleanOutput` verbatim, and the acknowledgement
differs from the transcript-bearing notification). -/
theorem ssh_password_prompt_flow (command phone chunk : String)
    (ledger : DedupLedger) (t0 t1 : Nat)
    (hssh : jsIncludes command "ssh" = true)
    (hnofail : hasAuthFailureOutput chunk = false)
    (hpwd : jsIncludes (jsLower chunk) "password" = true)
    (hnopd : jsIncludes chunk "Permission denied" = false) :
    (istep (.stdoutData t1 chunk) (startInteractive command phone t0 {} ledger)).result =
      some sshPasswordAck ∧
    (∀ s ∈ getSession phone
        (istep (.stdoutData t1 chunk) (startInteractive command phone t0 {} ledger)).world.mgr,
      s.isWaitingForInput = true) ∧
    (shouldSendMessage phone (cleanOutput chunk) ledger = true →
      (istep (.stdoutData t1 chunk) (startInteractive command phone t0 {} ledger)).notifications =
        [(phone, sshPasswordRequiredMessage command (cleanOutput chunk))] ∧
      (istep (.stdoutData t1 chunk) (startInteractive command phone t0 {} ledger)).ledger =
        markMessageSent phone (cleanOutput chunk) ledger) ∧
    (shouldSendMessage phone (cleanOutput chunk) ledger = false →
      (istep (.stdoutData t1 chunk) (startInteractive command phone t0 {} ledger)).notifications = []) ∧
    cleanOutput "user@host's password:" = "user@host's password:" ∧
    sshPasswordAck ≠ sshPasswordRequiredMessage "ssh user@host"
        (cleanOutput "user@host's password:") := by
  have hstep : istep (.stdoutData t1 chunk) (startInteractive command phone t0 {} ledger) =
      onStdoutData t1 chunk (startInteractive command phone t0 {} ledger) := rfl
  have h0 := onStdoutData_password t1 chunk (startInteractive command phone t0 {} ledger)
    rfl rfl rfl hnofail hpwd hnopd
  refine ⟨?_, ?_, ?_, ?_, by decide, by decide⟩
  · rw [hstep, h0]
    split <;> rfl
  · rw [hstep, h0]
    have hsess : ∀ s ∈ getSession phone
        (setWaitingForInput (startInteractive command phone t0 {} ledger).sessionId true t1
          (startInteractive command phone t0 {} ledger).world.mgr),
        s.isWaitingForInput = true := by
      simp [startInteractive, endSession, getSession, createSession, spawnProc,
        setProcess, setWaitingForInput, mapGet, mapSet]
    split <;> exact hsess
  · intro hd
    rw [hstep, h0]
    have hd2 : shouldSendMessage (startInteractive command phone t0 {} ledger).phone
        (cleanOutput chunk) (startInteractive command phone t0 {} ledger).ledger = true := hd
    rw [if_pos hd2]
    exact ⟨rfl, rfl⟩
  · intro hd
    rw [hstep, h0]
    have hd2 : ¬ shouldSendMessage (startInteractive command phone t0 {} ledger).phone
        (cleanOutput chunk) (startInteractive command phone t0 {} ledger).ledger = true := by
      rw [show (startInteractive command phone t0 {} ledger).phone = phone from rfl,
        show (startInteractive command phone t0 {} ledger).ledger = ledger from rfl, hd]
      exact fun hco => nomatch hco
    rw [if_neg hd2]
    rfl

/-- Witness for C6: `ssh user@host` writing `"user@host's password:"` with a
fresh ledger. -/
theorem ssh_password_prompt_flow_witness :
    (istep (.stdoutData 1500 "user@host's password:")
        (startInteractive "ssh user@host" "p" 1000 {} {})).result = some sshPasswordAck ∧
    (istep (.stdoutData 1500 "user@host's password:")
        (startInteractive "ssh user@host" "p" 1000 {} {})).notifications =
      [("p", sshPasswordRequiredMessage "ssh user@host"
          (cleanOutput "user@host's password:"))] := by
  have h := ssh_password_prompt_flow "ssh user@host" "p" "user@host's password:" {} 1000 1500
    (by decide) (by decide) (by decide) (by decide)
  exact ⟨h.1, (h.2.2.1 (by decide)).1⟩

/-- Claim C4: for a remote-login (ssh) invocation, an authentication-failure
phrase in the accumulated output takes precedence over a password-prompt
phrase in the same text window — with a failure phrase present, the stdout
handler modifies no session record, so no session is newly marked waiting
for a password — and once two `Permission denied` phrases have appeared
(with at most three password prompts, as an interactive ssh retry loop
produces), the handler — before any process exit — ends the session (the
record is deleted), kills a live process with SIGTERM, and resolves the
invocation with the bad-credentials diagnostic reporting attempts = 2. -/
theorem ssh_auth_failure_precedence (now : Nat) (chunk : String) (st : InvState) :
    (hasAuthFailureOutput (st.output ++ chunk) = true →
      ∀ sid s, mapGet sid (onStdoutData now chunk st).world.mgr.sessions = some s →
        mapGet sid st.world.mgr.sessions = some s) ∧
    (jsIncludes st.command "ssh" = true →
      countOcc (st.output ++ chunk) "Permission denied" = 2 →
      reCount rePasswordPromptEol (st.output ++ chunk).data ≤ 3 →
      st.resolvedFlag = false → st.result = none →
      (onStdoutData now chunk st).result =
        some (sshAuthFailedForcedMessage st.command 2 (cleanOutput (st.output ++ chunk))) ∧
      (onStdoutData now chunk st).resolvedFlag = true ∧
      (∀ s0, getSession st.phone st.world.mgr = some s0 →
        mapGet s0.id (onStdoutData now chunk st).world.mgr.sessions = none) ∧
      (∀ p, getProc st.world st.pid = some p → p.killed = false → p.exited = false →
        ∃ q, getProc (onStdoutData now chunk st).world st.pid = some q ∧
          q.killed = true ∧ "SIGTERM" ∈ q.signals)) := by
  constructor
  · intro hfail sid s hget
    unfold onStdoutData at hget
    simp only [hfail, Bool.and_true, Bool.not_true, Bool.false_and,
      Bool.false_eq_true, if_false] at hget
    split at hget
    · split at hget
      · -- forced-resolution branch: the session store is endSession's
        rw [tryResolve_world] at hget
        rcases sessions_endSession st.phone st.world with hse | ⟨s0, hg0, hse⟩
        · split at hget
          · split at hget
            · simp only [sendMessage, updProc] at hget
              rw [hse] at hget
              exact hget
            · simp only [sendMessage] at hget
              rw [hse] at hget
              exact hget
          · simp only [sendMessage] at hget
            rw [hse] at hget
            exact hget
        · split at hget
          · split at hget
            · simp only [sendMessage, updProc] at hget
              rw [hse] at hget
              exact mapGet_mapDelete_some sid s0.id _ s hget
            · simp only [sendMessage] at hget
              rw [hse] at hget
              exact mapGet_mapDelete_some sid s0.id _ s hget
          · simp only [sendMessage] at hget
            rw [hse] at hget
            exact mapGet_mapDelete_some sid s0.id _ s hget
      · exact hget
    · exact hget
  · intro hssh hpd hpr hres hr
    have hinf : jsIncludes (st.output ++ chunk) "Permission denied" = true := by
      unfold jsIncludes
      apply listInfix_of_countOccAux _ (by decide)
      unfold countOcc countOccList at hpd
      omega
    have hfail : hasAuthFailureOutput (st.output ++ chunk) = true := by
      unfold hasAuthFailureOutput
      rw [hinf]
      rfl
    have hmax : ((2 : Nat) : Int) ⊔
        ((reCount rePasswordPromptEol (st.output ++ chunk).data : Int) - 1) = 2 := by
      have h2 : ((2 : Nat) : Int) = 2 := by norm_num
      have h3 : ((reCount rePasswordPromptEol (st.output ++ chunk).data : Int) - 1) ≤ 2 := by
        omega
      rw [h2]
      exact max_eq_left h3
    unfold onStdoutData
    simp only [hssh, hfail, Bool.true_and, if_true, hpd, hres, Bool.not_false,
      Bool.and_true]
    rw [hmax]
    split
    · split
      · rename_i p0 hp0
        split
        · -- endSession left the process unkilled: the branch sends SIGTERM
          rename_i hk0
          refine ⟨?_, ?_, ?_, ?_⟩
          · simp only [sendMessage, tryResolve, hr]
          · simp only [tryResolve_flag, sendMessage]
          · intro s0 hg0
            rw [tryResolve_world]
            simp only [sendMessage, updProc]
            rw [sessions_endSession_some st.phone st.world s0 hg0]
            exact mapGet_mapDelete_self s0.id _
          · intro p hp hk hx
            rw [tryResolve_world]
            simp only [sendMessage]
            rcases endSession_proc st.phone st.world st.pid p hp with hep | hep
            · rw [hep] at hp0
              injection hp0 with hp2
              subst hp2
              rw [getProc_mgr_update, getProc_updProc_kill, hep, Option.map_some']
              rw [getProc_pid_eq _ _ _ hep]
              simp only [if_pos rfl]
              refine ⟨killProc "SIGTERM" p, rfl, ?_, ?_⟩
              · rw [killProc_not_exited _ _ hx]
              · rw [killProc_not_exited _ _ hx]
                simp
            · rw [hep] at hp0
              injection hp0 with hp2
              subst hp2
              exfalso
              have : (killProc "SIGTERM" p).killed = true := by
                rw [killProc_not_exited _ _ hx]
              rw [this] at hk0
              exact absurd hk0 (by intro hco; cases hco)
        · -- the process was already signalled while the session ended
          rename_i hk0
          refine ⟨?_, ?_, ?_, ?_⟩
          · simp only [sendMessage, tryResolve, hr]
          · simp only [tryResolve_flag, sendMessage]
          · intro s0 hg0
            rw [tryResolve_world]
            simp only [sendMessage]
            rw [sessions_endSession_some st.phone st.world s0 hg0]
            exact mapGet_mapDelete_self s0.id _
          · intro p hp hk hx
            rw [tryResolve_world]
            simp only [sendMessage]
            rcases endSession_proc st.phone st.world st.pid p hp with hep | hep
            · rw [hep] at hp0
              injection hp0 with hp2
              subst hp2
              rw [hk] at hk0
              exact absurd (by decide : (!false) = true) hk0
            · rw [hep] at hp0
              injection hp0 with hp2
              subst hp2
              refine ⟨killProc "SIGTERM" p, hep, ?_, ?_⟩
              · rw [killProc_not_exited _ _ hx]
              · rw [killProc_not_exited _ _ hx]
                simp
      · -- the session's process vanished from the table: no kill, store still ends
        rename_i hp0
        refine ⟨?_, ?_, ?_, ?_⟩
        · simp only [sendMessage, tryResolve, hr]
        · simp only [tryResolve_flag, sendMessage]
        · intro s0 hg0
          rw [tryResolve_world]
          simp only [sendMessage]
          rw [sessions_endSession_some st.phone st.world s0 hg0]
          exact mapGet_mapDelete_self s0.id _
        · intro p hp hk hx
          exfalso
          rcases endSession_proc st.phone st.world st.pid p hp with hep | hep <;>
            rw [hep] at hp0 <;> cases hp0
    · rename_i hco
      exfalso
      apply hco
      simp

set_option maxRecDepth 4000 in
/-- Witness for C4: after two `Permission denied` phrases the invocation is
force-resolved with the attempts-2 diagnostic and the process is
signalled. -/
theorem ssh_auth_failure_precedence_witness :
    countOcc ("" ++ sshFailChunk) "Permission denied" = 2 ∧
    (onStdoutData 1200 sshFailChunk (startInteractive "ssh u@h" "p1" 1000 {} {})).result =
      some (sshAuthFailedForcedMessage "ssh u@h" 2 (cleanOutput ("" ++ sshFailChunk))) ∧
    (onStdoutData 1200 sshFailChunk (startInteractive "ssh u@h" "p1" 1000 {} {})).resolvedFlag = true ∧
    (∃ q, getProc (onStdoutData 1200 sshFailChunk (startInteractive "ssh u@h" "p1" 1000 {} {})).world 0 =
        some q ∧ q.killed = true ∧ "SIGTERM" ∈ q.signals) := by
  have h := (ssh_auth_failure_precedence 1200 sshFailChunk
      (startInteractive "ssh u@h" "p1" 1000 {} {})).2
      (by decide) (by decide) (by decide) (by decide) (by decide)
  exact ⟨by decide, h.1, h.2.1,
    h.2.2.2 { pid := 0 } (by decide) (by decide) (by decide)⟩

/-- Claim C8: the sweep installed by the `SessionManager` constructor runs at
the fixed 60-second interval and removes every session idle longer than the
fixed 5-minute timeout, exactly as `end` would: after a sweep no surviving
session exceeds the timeout; an expired session's still-live process receives
SIGTERM; on a store holding exactly the expired session the sweep equals
`endSession` (kill plus record deletion), after which the caller's session
lookup is empty and the `sessions` directive reports no active session. -/
theorem idle_session_sweep :
    (SESSION_TIMEOUT = 5 * 60 * 1000 ∧ CLEANUP_INTERVAL = 60 * 1000) ∧
    (∀ (now : Nat) (w : World), ∀ kv ∈ (cleanupExpiredSessions now w).mgr.sessions,
      now - kv.2.lastActivity ≤ SESSION_TIMEOUT) ∧
    (∀ (now : Nat) (w : World) (kv : String × InteractiveSession) (pid : Nat),
      kv ∈ w.mgr.sessions →
      now - kv.2.lastActivity > SESSION_TIMEOUT →
      kv.2.process = some pid →
      (∃ q, getProc w pid = some q ∧ q.killed = false ∧ q.exited = false) →
      ∃ q, getProc (cleanupExpiredSessions now w) pid = some q ∧
        q.killed = true ∧ "SIGTERM" ∈ q.signals) ∧
    (∀ (now : Nat) (w : World) (s : InteractiveSession),
      w.mgr.sessions = [(s.id, s)] →
      now - s.lastActivity > SESSION_TIMEOUT →
      cleanupExpiredSessions now w = endSession s.phone w ∧
      getSession s.phone (cleanupExpiredSessions now w).mgr = none ∧
      executeCommandAction "sessions" s.phone (cleanupExpiredSessions now w) =
        (.sessionsInfo noActiveSessionsMessage, cleanupExpiredSessions now w)) := by
  refine ⟨⟨rfl, rfl⟩, cleanup_remaining_not_expired, ?_, ?_⟩
  · intro now w kv pid hmem hexp hpid h
    obtain ⟨q, hq, hk, hx⟩ := h
    refine cleanupFold_kills now w.mgr.sessions w kv pid hmem hexp hpid
      ⟨q, hq, hx, ?_⟩
    intro hkk
    rw [hk] at hkk
    cases hkk
  · intro now w s hs hexp
    exact ⟨cleanup_singleton_eq_end now w s hs hexp,
      (cleanup_singleton_no_session now w s hs hexp).1,
      (cleanup_singleton_no_session now w s hs hexp).2⟩

/-- Witness for C8 at time 301000 ms (5 minutes and a second after the last
activity). -/
theorem idle_session_sweep_witness :
    cleanupExpiredSessions 301000 expiredWorldExample =
      endSession "p" expiredWorldExample ∧
    getSession "p" (cleanupExpiredSessions 301000 expiredWorldExample).mgr = none ∧
    executeCommandAction "sessions" "p" (cleanupExpiredSessions 301000 expiredWorldExample) =
      (.sessionsInfo noActiveSessionsMessage, cleanupExpiredSessions 301000 expiredWorldExample) ∧
    (∃ q, getProc (cleanupExpiredSessions 301000 expiredWorldExample) 0 = some q ∧
      q.killed = true ∧ "SIGTERM" ∈ q.signals) := by
  have h4 := idle_session_sweep.2.2.2 301000 expiredWorldExample expiredSessionExample
    (by decide) (by decide)
  have h3 := idle_session_sweep.2.2.1 301000 expiredWorldExample
    ("p_9", expiredSessionExample) 0 (by decide) (by decide) (by decide)
    ⟨{ pid := 0 }, by decide, rfl, rfl⟩
  exact ⟨h4.1, h4.2.1, h4.2.2, h3⟩

/-- C2: at most one session exists per caller identity. `startInteractive`
(end the caller's old session, create the new record, spawn and attach the
process) preserves the registry well-formedness and the at-most-one-session
invariant for every caller; and in the start(A)-then-start(B) scenario for
one caller, already at the intermediate world produced by `endSession` A's
process has received SIGTERM and the caller has no session, while in the
final world `getSession` returns exactly B's record, the caller's session
list is exactly that one record, and A's process keeps the SIGTERM it
received before B's session was created. -/
theorem single_session_per_caller :
    (∀ (command phone : String) (now : Nat) (w : World) (ledger : DedupLedger),
      StoreWF w.mgr → AtMostOnePerCaller w.mgr →
      StoreWF (startInteractive command phone now w ledger).world.mgr ∧
        AtMostOnePerCaller (startInteractive command phone now w ledger).world.mgr) ∧
    (∀ (cmdA cmdB phone : String) (tA tB : Nat) (L1 L2 : DedupLedger),
      ((getProc (endSession phone (startInteractive cmdA phone tA {} L1).world)
          (startInteractive cmdA phone tA {} L1).pid).map ChildProc.signals =
        some ["SIGTERM"] ∧
        sessionsOf phone
          (endSession phone (startInteractive cmdA phone tA {} L1).world).mgr = []) ∧
      getSession phone (startInteractive cmdB phone tB
          (startInteractive cmdA phone tA {} L1).world L2).world.mgr =
        some { id := phone ++ "_" ++ toString tB, phone := phone,
               process := some (startInteractive cmdB phone tB
                 (startInteractive cmdA phone tA {} L1).world L2).pid,
               command := cmdB, isWaitingForInput := false,
               createdAt := tB, lastActivity := tB } ∧
      sessionsOf phone (startInteractive cmdB phone tB
          (startInteractive cmdA phone tA {} L1).world L2).world.mgr =
        [{ id := phone ++ "_" ++ toString tB, phone := phone,
           process := some (startInteractive cmdB phone tB
             (startInteractive cmdA phone tA {} L1).world L2).pid,
           command := cmdB, isWaitingForInput := false,
           createdAt := tB, lastActivity := tB }] ∧
      (getProc (startInteractive cmdB phone tB
          (startInteractive cmdA phone tA {} L1).world L2).world
        (startInteractive cmdA phone tA {} L1).pid).map ChildProc.signals =
        some ["SIGTERM"]) :=
  ⟨startInteractive_invariant, start_twice_scenario⟩

theorem single_session_per_caller_witness :
    StoreWF (World.mk {} [] 0).mgr ∧ AtMostOnePerCaller (World.mk {} [] 0).mgr ∧
      (StoreWF (startInteractive "ssh root@h" "p1" 7 (World.mk {} [] 0) {}).world.mgr ∧
        AtMostOnePerCaller
          (startInteractive "ssh root@h" "p1" 7 (World.mk {} [] 0) {}).world.mgr) := by
  have hwf0 : StoreWF (World.mk {} [] 0).mgr :=
    ⟨List.nodup_nil, fun kv h => absurd h (List.not_mem_nil kv)⟩
  have h10 : AtMostOnePerCaller (World.mk {} [] 0).mgr := by
    intro ph
    simp [sessionsOf]
  exact ⟨hwf0, h10,
    single_session_per_caller.1 "ssh root@h" "p1" 7 (World.mk {} [] 0) {} hwf0 h10⟩


/-- C1 (amended): single resolution holds — once the invocation's promise
holds a result, no later event (debounced classification, password
detection, process exit, process error, hard timeout) changes it, for a
single step and for whole traces — but the late-message half of the claim
is wrong: after output-then-exit the exit handler's `endSession` has
deleted the session record, so a follow-up message from the caller is
dispatched as a new command (here non-interactive), never routed to
`handleInteractiveInput`; and `handleInteractiveInput` itself returns the
SessionGone message exactly when the process handle is absent or the
process was killed via `kill()` — a process that merely exited is not
caught by that guard. -/
theorem interactive_single_result :
    (∀ (e : IEvent) (stX : InvState) (r : String),
      stX.result = some r → (istep e stX).result = some r) ∧
    (∀ (events : List IEvent) (stX : InvState) (r : String),
      stX.result = some r → (runTrace events stX).result = some r) ∧
    (∀ (command phone : String) (w : World),
      isBlocked command = false → jsLower command ≠ "exit" → jsLower command ≠ "quit" →
      jsLower command ≠ "sessions" → getSession phone w.mgr = none →
      isInteractiveCommand command = false →
      executeCommandAction command phone w = (.runNonInteractive command, w)) ∧
    (∀ (session : InteractiveSession) (input : String) (now : Nat) (w : World),
      (handleInteractiveInput session input now w).1 = .gone sessionGoneMessage ↔
        (session.process = none ∨ ∃ pid, session.process = some pid ∧
          (getProc w pid = none ∨ (getProc w pid).map ChildProc.killed = some true))) :=
  ⟨istep_result, runTrace_result, dispatch_after_session_end, handleInteractiveInput_gone_iff⟩

theorem interactive_single_result_witness :
    ((istep (IEvent.exited (some 0))
        ({ command := "apt list", phone := "p1", sessionId := "s", pid := 0,
           result := some "done", world := {} } : InvState)).result = some "done") ∧
    ((runTrace [IEvent.sshTimeout, IEvent.procError "boom"]
        ({ command := "apt list", phone := "p1", sessionId := "s", pid := 0,
           result := some "done", world := {} } : InvState)).result = some "done") ∧
    (executeCommandAction "mypassword" "p1" {} =
      (DispatchAction.runNonInteractive "mypassword", {})) :=
  ⟨interactive_single_result.1 (IEvent.exited (some 0)) _ "done" rfl,
   interactive_single_result.2.1 [IEvent.sshTimeout, IEvent.procError "boom"] _ "done" rfl,
   interactive_single_result.2.2.1 "mypassword" "p1" {} (by decide) (by decide) (by decide)
     (by decide) rfl (by decide)⟩

set_option maxRecDepth 8000 in
/-- C1 counterexample: for `apt list` emitting `pkg` then exiting 0, the
first event alone resolves nothing and the exit handler resolves exactly
once; but the late follow-up message `mypassword` does NOT produce the
SessionGone message: the session record is already gone, the dispatcher
treats the text as a fresh non-interactive command, and even a direct
`handleInteractiveInput` call on the stale record writes to the exited
(never-killed) process and returns `written`. -/
theorem late_input_not_session_gone :
    ((runTrace [IEvent.stdoutData 11 "pkg\n"]
        (startInteractive "apt list" "p1" 10 {} {})).result = none) ∧
    ((runTrace [IEvent.stdoutData 11 "pkg\n", IEvent.exited (some 0)]
        (startInteractive "apt list" "p1" 10 {} {})).result.isSome = true) ∧
    (getSession "p1" (runTrace [IEvent.stdoutData 11 "pkg\n", IEvent.exited (some 0)]
        (startInteractive "apt list" "p1" 10 {} {})).world.mgr = none) ∧
    (executeCommandAction "mypassword" "p1"
        (runTrace [IEvent.stdoutData 11 "pkg\n", IEvent.exited (some 0)]
          (startInteractive "apt list" "p1" 10 {} {})).world =
      (DispatchAction.runNonInteractive "mypassword",
        (runTrace [IEvent.stdoutData 11 "pkg\n", IEvent.exited (some 0)]
          (startInteractive "apt list" "p1" 10 {} {})).world)) ∧
    ((handleInteractiveInput
        { id := "p1_10", phone := "p1", process := some 0, command := "apt list",
          isWaitingForInput := false, createdAt := 10, lastActivity := 10 }
        "mypassword" 12
        (runTrace [IEvent.stdoutData 11 "pkg\n", IEvent.exited (some 0)]
          (startInteractive "apt list" "p1" 10 {} {})).world).1 =
      InputOutcome.written) := by
  decide

end CCG
